import Mathlib

/-!
# libmallochooks: the interception protocol of `event_hooks.c` and `generic.inc.c`

A shallow embedding of the two interceptor realizations.

* Pointers, sizes, alignments and caller identities are natural numbers; the
  null pointer is `0`.  The hooks perform no arithmetic on them.
* Everything a hook calls that lives outside the two files is a parameter:
  the Event Sink callbacks (`alloc_events.h`), the next-in-chain hooks
  (`hook_protos.h`), `malloc_usable_size`, and, for `generic.inc.c`, the
  `__real_*` allocator entry points and the two translator functions.
* A hook is a computation over an explicit state `σ` (the state of the sink,
  of the allocator and of the rest of the chain).  Running it yields the value
  it returned (`none` when the process aborted on a failed `assert`), the final
  state, and the list of the calls the hook made, in program order.  A call to
  a next-in-chain function carries the calls that function made in turn, so a
  chain of interceptors yields a call tree.
* The build modelled is the default one: `TRACE_MALLOC_HOOKS` undefined,
  assertions enabled, `ALLOCPTR_TO_USERPTR` / `USERPTR_TO_ALLOCPTR` not
  overridden.
-/

namespace MallocHooks

/-! ## Calls and call trees -/

/-- The external functions a hook can call, with the arguments passed. -/
inductive Call where
  /-- C source: `post_init()` of the sink. -/
  | post_init
  /-- C source: `pre_alloc(&size, &alignment, caller)`: the values passed in. -/
  | pre_alloc (size alignment caller : Nat)
  /-- C source: `post_successful_alloc(allocptr, modified_size, modified_alignment,
  requested_size, requested_alignment, caller)`. -/
  | post_successful_alloc (allocptr modified_size modified_alignment
      requested_size requested_alignment caller : Nat)
  /-- C source: `pre_nonnull_free(userptr, size_to_be_freed)`. -/
  | pre_nonnull_free (userptr size_to_be_freed : Nat)
  /-- C source: `post_nonnull_free(userptr)`. -/
  | post_nonnull_free (userptr : Nat)
  /-- C source: `pre_nonnull_nonzero_realloc(userptr, size, caller)`. -/
  | pre_nonnull_nonzero_realloc (userptr size caller : Nat)
  /-- C source: `post_nonnull_nonzero_realloc(userptr, modified_size, old_usable_size,
  caller, result_allocptr)`. -/
  | post_nonnull_nonzero_realloc (userptr modified_size old_usable_size caller
      result_allocptr : Nat)
  /-- C source: `malloc_usable_size(ptr)`. -/
  | malloc_usable_size (ptr : Nat)
  /-- C source: `__next_hook_init()`. -/
  | next_hook_init
  /-- C source: `__next_hook_malloc(size, caller)`. -/
  | next_hook_malloc (size caller : Nat)
  /-- C source: `__next_hook_free(ptr, caller)`. -/
  | next_hook_free (ptr caller : Nat)
  /-- C source: `__next_hook_memalign(alignment, size, caller)`. -/
  | next_hook_memalign (alignment size caller : Nat)
  /-- C source: `__next_hook_realloc(ptr, size, caller)`. -/
  | next_hook_realloc (ptr size caller : Nat)
  /-- C source: `initialize_hook()` of `generic.inc.c`. -/
  | initialize_hook
  /-- C source: `__next_initialize_hook()`. -/
  | next_initialize_hook
  /-- C source: `__next_malloc_hook(size, caller)`. -/
  | next_malloc_hook (size caller : Nat)
  /-- C source: `__next_free_hook(ptr, caller)`. -/
  | next_free_hook (ptr caller : Nat)
  /-- C source: `__next_memalign_hook(alignment, size, caller)`. -/
  | next_memalign_hook (alignment size caller : Nat)
  /-- C source: `__next_realloc_hook(ptr, size, caller)`. -/
  | next_realloc_hook (ptr size caller : Nat)
  /-- C source: `__real_malloc(size)`. -/
  | real_malloc (size : Nat)
  /-- C source: `__real_free(ptr)`. -/
  | real_free (ptr : Nat)
  /-- C source: `__real_memalign(alignment, size)`. -/
  | real_memalign (alignment size : Nat)
  /-- C source: `__real_realloc(ptr, size)`. -/
  | real_realloc (ptr size : Nat)
  deriving DecidableEq, Repr

/-- One call made by a hook, together with the calls the callee made while it
ran (empty for a sink callback or `malloc_usable_size`). -/
inductive Ev where
  | mk (call : Call) (inner : List Ev)

/-- The call at the root of a call tree. -/
def Ev.call : Ev → Call
  | Ev.mk c _ => c

/-- The calls the callee made. -/
def Ev.inner : Ev → List Ev
  | Ev.mk _ inner => inner

/-- Outcome of running a hook or a next-in-chain function. -/
structure Res (σ : Type) (α : Type) where
  /-- The value returned, or `none` when the process aborted. -/
  val : Option α
  /-- The state afterwards. -/
  st : σ
  /-- The calls made, in program order. -/
  calls : List Ev

/-- A computation over the state `σ` that records the calls it makes. -/
def M (σ : Type) (α : Type) : Type := σ → Res σ α

/-- Return a value, calling nothing. -/
def M.pure {σ α : Type} (a : α) : M σ α :=
  fun st => ⟨some a, st, []⟩

/-- Sequencing: an abort ends the run; the calls made are concatenated. -/
def M.bind {σ α β : Type} (x : M σ α) (f : α → M σ β) : M σ β :=
  fun st =>
    match (x st).val with
    | none => ⟨none, (x st).st, (x st).calls⟩
    | some a => ⟨(f a (x st).st).val, (f a (x st).st).st, (x st).calls ++ (f a (x st).st).calls⟩

instance (σ : Type) : Monad (M σ) where
  pure := M.pure
  bind := M.bind

/-- C `assert`: a false condition aborts the process. -/
def assert {σ : Type} (cond : Bool) : M σ Unit :=
  fun st => ⟨if cond then some () else none, st, []⟩

/-- Call a function that returns and calls nothing observable in turn. -/
def leaf {σ α : Type} (c : Call) (f : σ → α × σ) : M σ α :=
  fun st => ⟨some (f st).1, (f st).2, [Ev.mk c []]⟩

/-- Call a next-in-chain function: the call is recorded with the calls the
callee made; if the callee aborted, so does the caller. -/
def link {σ α : Type} (c : Call) (f : σ → Res σ α) : M σ α :=
  fun st => ⟨(f st).val, (f st).st, [Ev.mk c (f st).calls]⟩

/-! ## The parameters -/

/-- The Event Sink of `alloc_events.h`.  `pre_alloc` returns the values it left
in `*size` and `*alignment`. -/
structure Sink (σ : Type) where
  post_init : σ → σ
  pre_alloc : Nat → Nat → Nat → σ → (Nat × Nat) × σ
  post_successful_alloc : Nat → Nat → Nat → Nat → Nat → Nat → σ → σ
  pre_nonnull_free : Nat → Nat → σ → σ
  post_nonnull_free : Nat → σ → σ
  pre_nonnull_nonzero_realloc : Nat → Nat → Nat → σ → σ
  post_nonnull_nonzero_realloc : Nat → Nat → Nat → Nat → Nat → σ → σ

/-- What `event_hooks.c` is compiled and linked against. -/
structure Env (σ : Type) where
  /-- The value of `sizeof (void *)`. -/
  sizeof_void_ptr : Nat
  /-- The sink reached through `ALLOC_EVENT(...)`. -/
  sink : Sink σ
  malloc_usable_size : Nat → σ → Nat × σ
  next_hook_init : σ → Res σ Unit
  next_hook_malloc : Nat → Nat → σ → Res σ Nat
  next_hook_free : Nat → Nat → σ → Res σ Unit
  next_hook_memalign : Nat → Nat → Nat → σ → Res σ Nat
  next_hook_realloc : Nat → Nat → Nat → σ → Res σ Nat

/-- What `generic.inc.c` is included into and linked against.  A weak
`__next_*_hook` symbol is either absent (`none`) or present. -/
structure GenericEnv (σ : Type) where
  /-- The value of `sizeof (void *)`. -/
  sizeof_void_ptr : Nat
  /-- The sink: `initialize_hook` is its `post_init` field. -/
  sink : Sink σ
  malloc_usable_size : Nat → σ → Nat × σ
  allocptr_to_userptr : Nat → Nat
  userptr_to_allocptr : Nat → Nat
  next_initialize_hook : Option (σ → Res σ Unit)
  next_malloc_hook : Option (Nat → Nat → σ → Res σ Nat)
  next_free_hook : Option (Nat → Nat → σ → Res σ Unit)
  next_memalign_hook : Option (Nat → Nat → Nat → σ → Res σ Nat)
  next_realloc_hook : Option (Nat → Nat → Nat → σ → Res σ Nat)
  real_malloc : Nat → σ → Res σ Nat
  real_free : Nat → σ → Res σ Unit
  real_memalign : Nat → Nat → σ → Res σ Nat
  real_realloc : Nat → Nat → σ → Res σ Nat

/-! ## The calls, as recorded computations -/

section Calls
variable {σ : Type}

/-- Sink call `post_init()`. -/
def ev_post_init (S : Sink σ) : M σ Unit :=
  leaf Call.post_init (fun st => ((), S.post_init st))

/-- Sink call `pre_alloc(&size, &alignment, caller)`; yields the new
`(size, alignment)`. -/
def ev_pre_alloc (S : Sink σ) (size alignment caller : Nat) : M σ (Nat × Nat) :=
  leaf (Call.pre_alloc size alignment caller) (S.pre_alloc size alignment caller)

/-- Sink call `post_successful_alloc(...)`. -/
def ev_post_successful_alloc (S : Sink σ) (allocptr modified_size modified_alignment
    requested_size requested_alignment caller : Nat) : M σ Unit :=
  leaf (Call.post_successful_alloc allocptr modified_size modified_alignment
      requested_size requested_alignment caller)
    (fun st => ((), S.post_successful_alloc allocptr modified_size modified_alignment
      requested_size requested_alignment caller st))

/-- Sink call `pre_nonnull_free(userptr, size_to_be_freed)`. -/
def ev_pre_nonnull_free (S : Sink σ) (userptr size_to_be_freed : Nat) : M σ Unit :=
  leaf (Call.pre_nonnull_free userptr size_to_be_freed)
    (fun st => ((), S.pre_nonnull_free userptr size_to_be_freed st))

/-- Sink call `post_nonnull_free(userptr)`. -/
def ev_post_nonnull_free (S : Sink σ) (userptr : Nat) : M σ Unit :=
  leaf (Call.post_nonnull_free userptr) (fun st => ((), S.post_nonnull_free userptr st))

/-- Sink call `pre_nonnull_nonzero_realloc(userptr, size, caller)`. -/
def ev_pre_nonnull_nonzero_realloc (S : Sink σ) (userptr size caller : Nat) : M σ Unit :=
  leaf (Call.pre_nonnull_nonzero_realloc userptr size caller)
    (fun st => ((), S.pre_nonnull_nonzero_realloc userptr size caller st))

/-- Sink call `post_nonnull_nonzero_realloc(...)`. -/
def ev_post_nonnull_nonzero_realloc (S : Sink σ) (userptr modified_size old_usable_size
    caller result_allocptr : Nat) : M σ Unit :=
  leaf (Call.post_nonnull_nonzero_realloc userptr modified_size old_usable_size caller
      result_allocptr)
    (fun st => ((), S.post_nonnull_nonzero_realloc userptr modified_size old_usable_size
      caller result_allocptr st))

/-- The query `malloc_usable_size(ptr)`. -/
def usable_size (f : Nat → σ → Nat × σ) (ptr : Nat) : M σ Nat :=
  leaf (Call.malloc_usable_size ptr) (f ptr)

end Calls

/-! ## `event_hooks.c` -/

/-- C source: `#define ALLOCPTR_TO_USERPTR(a) (a)`. -/
def ALLOCPTR_TO_USERPTR (a : Nat) : Nat := a

/-- C source: `#define USERPTR_TO_ALLOCPTR(u) (u)`. -/
def USERPTR_TO_ALLOCPTR (u : Nat) : Nat := u

section EventHooks
variable {σ : Type}

/-- C source: `void hook_init(void)`. -/
def hook_init (E : Env σ) : M σ Unit := do
  ev_post_init E.sink
  link Call.next_hook_init E.next_hook_init

/-- C source: `void *hook_malloc(size_t size, const void *caller)`. -/
def hook_malloc (E : Env σ) (size caller : Nat) : M σ Nat := do
  let (modified_size, modified_alignment) ←
    ev_pre_alloc E.sink size E.sizeof_void_ptr caller
  assert (modified_alignment == E.sizeof_void_ptr)
  let result ← link (Call.next_hook_malloc modified_size caller)
    (E.next_hook_malloc modified_size caller)
  if result ≠ 0 then
    ev_post_successful_alloc E.sink result modified_size modified_alignment
      size E.sizeof_void_ptr caller
  return ALLOCPTR_TO_USERPTR result

/-- C source: `void hook_free(void *userptr, const void *caller)`. -/
def hook_free (E : Env σ) (userptr caller : Nat) : M σ Unit := do
  let allocptr := USERPTR_TO_ALLOCPTR userptr
  if userptr ≠ 0 then
    let usable ← usable_size E.malloc_usable_size allocptr
    ev_pre_nonnull_free E.sink userptr usable
  link (Call.next_hook_free allocptr caller) (E.next_hook_free allocptr caller)
  if userptr ≠ 0 then
    ev_post_nonnull_free E.sink userptr

/-- C source: `void *hook_memalign(size_t alignment, size_t size, const void *caller)`. -/
def hook_memalign (E : Env σ) (alignment size caller : Nat) : M σ Nat := do
  let (modified_size, modified_alignment) ← ev_pre_alloc E.sink size alignment caller
  let result ← link (Call.next_hook_memalign modified_alignment modified_size caller)
    (E.next_hook_memalign modified_alignment modified_size caller)
  if result ≠ 0 then
    ev_post_successful_alloc E.sink result modified_size modified_alignment
      size alignment caller
  return ALLOCPTR_TO_USERPTR result

/-- C source: `void *hook_realloc(void *userptr, size_t size, const void *caller)`.
`old_usable_size` is uninitialised in C until a branch assigns it; it is read
only in the branch that assigned it, and starts as `0` here. -/
def hook_realloc (E : Env σ) (userptr size caller : Nat) : M σ Nat := do
  let mut size := size
  let allocptr := USERPTR_TO_ALLOCPTR userptr
  let mut alignment := E.sizeof_void_ptr
  let mut old_usable_size := 0
  if userptr = 0 then
    (size, alignment) ← ev_pre_alloc E.sink size alignment caller
  else if size = 0 then
    old_usable_size ← usable_size E.malloc_usable_size allocptr
    ev_pre_nonnull_free E.sink userptr old_usable_size
  else
    old_usable_size ← usable_size E.malloc_usable_size allocptr
    ev_pre_nonnull_nonzero_realloc E.sink userptr size caller
  let mut modified_size := size
  let mut modified_alignment := E.sizeof_void_ptr
  if size ≠ 0 then
    (modified_size, modified_alignment) ←
      ev_pre_alloc E.sink modified_size modified_alignment caller
    assert (modified_alignment == E.sizeof_void_ptr)
  let result_allocptr ← link (Call.next_hook_realloc allocptr modified_size caller)
    (E.next_hook_realloc allocptr modified_size caller)
  if userptr = 0 then
    if result_allocptr ≠ 0 then
      ev_post_successful_alloc E.sink result_allocptr modified_size modified_alignment
        size E.sizeof_void_ptr caller
  else if size = 0 then
    ev_post_nonnull_free E.sink userptr
  else
    ev_post_nonnull_nonzero_realloc E.sink userptr modified_size old_usable_size caller
      result_allocptr
  return ALLOCPTR_TO_USERPTR result_allocptr

end EventHooks

/-! ## `generic.inc.c` -/

section Generic
variable {σ : Type}

/-- C source: `static void generic_initialize_hook(void)`. -/
def generic_initialize_hook (G : GenericEnv σ) : M σ Unit := do
  match G.next_initialize_hook with
  | some next => link Call.next_initialize_hook next
  | none => pure ()
  leaf Call.initialize_hook (fun st => ((), G.sink.post_init st))

/-- C source: `static void *generic_malloc_hook(size_t size, const void *caller)`. -/
def generic_malloc_hook (G : GenericEnv σ) (size caller : Nat) : M σ Nat := do
  let (modified_size, modified_alignment) ←
    ev_pre_alloc G.sink size G.sizeof_void_ptr caller
  assert (modified_alignment == G.sizeof_void_ptr)
  let result ←
    match G.next_malloc_hook with
    | some next => link (Call.next_malloc_hook size caller) (next size caller)
    | none => link (Call.real_malloc modified_size) (G.real_malloc modified_size)
  if result ≠ 0 then
    ev_post_successful_alloc G.sink result modified_size modified_alignment
      size G.sizeof_void_ptr caller
  return G.allocptr_to_userptr result

/-- C source: `static void generic_free_hook(void *userptr, const void *caller)`. -/
def generic_free_hook (G : GenericEnv σ) (userptr caller : Nat) : M σ Unit := do
  let allocptr := G.userptr_to_allocptr userptr
  if userptr ≠ 0 then
    let usable ← usable_size G.malloc_usable_size allocptr
    ev_pre_nonnull_free G.sink userptr usable
  match G.next_free_hook with
  | some next => link (Call.next_free_hook allocptr caller) (next allocptr caller)
  | none => link (Call.real_free allocptr) (G.real_free allocptr)
  if userptr ≠ 0 then
    ev_post_nonnull_free G.sink userptr

/-- C source: `static void *generic_memalign_hook(size_t alignment, size_t size,
const void *caller)`. -/
def generic_memalign_hook (G : GenericEnv σ) (alignment size caller : Nat) : M σ Nat := do
  let (modified_size, modified_alignment) ← ev_pre_alloc G.sink size alignment caller
  let result ←
    match G.next_memalign_hook with
    | some next =>
      link (Call.next_memalign_hook modified_alignment modified_size caller)
        (next modified_alignment modified_size caller)
    | none =>
      link (Call.real_memalign modified_alignment modified_size)
        (G.real_memalign modified_alignment modified_size)
  if result ≠ 0 then
    ev_post_successful_alloc G.sink result modified_size modified_alignment
      size alignment caller
  return G.allocptr_to_userptr result

/-- C source: `static void *generic_realloc_hook(void *userptr, size_t size,
const void *caller)`.  `old_usable_size` is assigned only in the last branch of
the case split (the middle branch passes the query straight to the sink) and is
read only in the matching last branch at the end; it starts as `0` here. -/
def generic_realloc_hook (G : GenericEnv σ) (userptr size caller : Nat) : M σ Nat := do
  let mut size := size
  let allocptr := G.userptr_to_allocptr userptr
  let mut alignment := G.sizeof_void_ptr
  let mut old_usable_size := 0
  if userptr = 0 then
    (size, alignment) ← ev_pre_alloc G.sink size alignment caller
  else if size = 0 then
    let usable ← usable_size G.malloc_usable_size allocptr
    ev_pre_nonnull_free G.sink userptr usable
  else
    old_usable_size ← usable_size G.malloc_usable_size allocptr
    ev_pre_nonnull_nonzero_realloc G.sink userptr size caller
  let mut modified_size := size
  let mut modified_alignment := G.sizeof_void_ptr
  if size ≠ 0 then
    (modified_size, modified_alignment) ←
      ev_pre_alloc G.sink modified_size modified_alignment caller
    assert (modified_alignment == G.sizeof_void_ptr)
  let result_allocptr ←
    match G.next_realloc_hook with
    | some next =>
      link (Call.next_realloc_hook allocptr modified_size caller)
        (next allocptr modified_size caller)
    | none =>
      link (Call.real_realloc allocptr modified_size) (G.real_realloc allocptr modified_size)
  if userptr = 0 then
    if result_allocptr ≠ 0 then
      ev_post_successful_alloc G.sink result_allocptr modified_size modified_alignment
        size G.sizeof_void_ptr caller
  else if size = 0 then
    ev_post_nonnull_free G.sink userptr
  else
    ev_post_nonnull_nonzero_realloc G.sink userptr modified_size old_usable_size caller
      result_allocptr
  return G.allocptr_to_userptr result_allocptr

end Generic

/-! ## Concrete parameters used to exercise the hooks -/

/-- The sink that doubles the requested size in `pre_alloc` (in `size_t`
arithmetic, 64 bits wide), keeps the alignment, and does nothing else. -/
def doubling_sink : Sink Unit where
  post_init := fun st => st
  pre_alloc := fun size alignment _ st => (((2 * size) % 2 ^ 64, alignment), st)
  post_successful_alloc := fun _ _ _ _ _ _ st => st
  pre_nonnull_free := fun _ _ st => st
  post_nonnull_free := fun _ st => st
  pre_nonnull_nonzero_realloc := fun _ _ _ st => st
  post_nonnull_nonzero_realloc := fun _ _ _ _ _ st => st

/-- The sink that changes nothing. -/
def identity_sink : Sink Unit where
  post_init := fun st => st
  pre_alloc := fun size alignment _ st => ((size, alignment), st)
  post_successful_alloc := fun _ _ _ _ _ _ st => st
  pre_nonnull_free := fun _ _ st => st
  post_nonnull_free := fun _ st => st
  pre_nonnull_nonzero_realloc := fun _ _ _ st => st
  post_nonnull_nonzero_realloc := fun _ _ _ _ _ st => st

/-- A stateless allocator that hands out the block at address `4096` for every
request of at most `1000000` bytes and fails above that; `free` does nothing
and every block has usable size `24`.  It makes no further calls. -/
def toy_env (S : Sink Unit) : Env Unit where
  sizeof_void_ptr := 8
  sink := S
  malloc_usable_size := fun _ st => (24, st)
  next_hook_init := fun st => ⟨some (), st, []⟩
  next_hook_malloc := fun size _ st => ⟨some (if size ≤ 1000000 then 4096 else 0), st, []⟩
  next_hook_free := fun _ _ st => ⟨some (), st, []⟩
  next_hook_memalign := fun _ size _ st =>
    ⟨some (if size ≤ 1000000 then 4096 else 0), st, []⟩
  next_hook_realloc := fun _ size _ st =>
    ⟨some (if size ≤ 1000000 then 4096 else 0), st, []⟩

/-- The sink that reserves a 16-byte trailer in `pre_alloc` (in `size_t`
arithmetic, 64 bits wide), keeps the alignment, and does nothing else. -/
def trailer_sink : Sink Unit where
  post_init := fun st => st
  pre_alloc := fun size alignment _ st => (((size + 16) % 2 ^ 64, alignment), st)
  post_successful_alloc := fun _ _ _ _ _ _ st => st
  pre_nonnull_free := fun _ _ st => st
  post_nonnull_free := fun _ st => st
  pre_nonnull_nonzero_realloc := fun _ _ _ st => st
  post_nonnull_nonzero_realloc := fun _ _ _ _ _ st => st

/-- The sink that reserves a 16-byte trailer and raises every alignment below
`64` to `64` in `pre_alloc`, and does nothing else. -/
def realigning_sink : Sink Unit where
  post_init := fun st => st
  pre_alloc := fun size alignment _ st =>
    (((size + 16) % 2 ^ 64, if alignment < 64 then 64 else alignment), st)
  post_successful_alloc := fun _ _ _ _ _ _ st => st
  pre_nonnull_free := fun _ _ st => st
  post_nonnull_free := fun _ st => st
  pre_nonnull_nonzero_realloc := fun _ _ _ st => st
  post_nonnull_nonzero_realloc := fun _ _ _ _ _ st => st

/-- Interceptor A in front of interceptor B: every next-in-chain hook of A is
the corresponding hook of `event_hooks.c` built against `EB`. -/
def chain_env {σ : Type} (SA : Sink σ) (EB : Env σ) : Env σ where
  sizeof_void_ptr := EB.sizeof_void_ptr
  sink := SA
  malloc_usable_size := EB.malloc_usable_size
  next_hook_init := hook_init EB
  next_hook_malloc := hook_malloc EB
  next_hook_free := hook_free EB
  next_hook_memalign := hook_memalign EB
  next_hook_realloc := hook_realloc EB

/-- Parameters for `generic.inc.c` over the same toy allocator: identity
translators, and next-in-chain hooks that are all present or all absent. -/
def toy_generic_env (S : Sink Unit) (present : Bool) : GenericEnv Unit where
  sizeof_void_ptr := 8
  sink := S
  malloc_usable_size := fun _ st => (24, st)
  allocptr_to_userptr := fun a => a
  userptr_to_allocptr := fun u => u
  next_initialize_hook := if present then some (fun st => ⟨some (), st, []⟩) else none
  next_malloc_hook :=
    if present then
      some (fun size _ st => ⟨some (if size ≤ 1000000 then 4096 else 0), st, []⟩)
    else none
  next_free_hook := if present then some (fun _ _ st => ⟨some (), st, []⟩) else none
  next_memalign_hook :=
    if present then
      some (fun _ size _ st => ⟨some (if size ≤ 1000000 then 4096 else 0), st, []⟩)
    else none
  next_realloc_hook :=
    if present then
      some (fun _ size _ st => ⟨some (if size ≤ 1000000 then 4096 else 0), st, []⟩)
    else none
  real_malloc := fun size st => ⟨some (if size ≤ 1000000 then 4096 else 0), st, []⟩
  real_free := fun _ st => ⟨some (), st, []⟩
  real_memalign := fun _ size st => ⟨some (if size ≤ 1000000 then 4096 else 0), st, []⟩
  real_realloc := fun _ size st => ⟨some (if size ≤ 1000000 then 4096 else 0), st, []⟩

/-! ## Observations on call trees -/

mutual
/-- All the calls of a call tree, nested ones included, in the order in which
they were made. -/
def Ev.preorder : Ev → List Call
  | Ev.mk c inner => c :: preorder_list inner
/-- All the calls of a list of call trees, in the order in which they were
made. -/
def preorder_list : List Ev → List Call
  | [] => []
  | e :: es => e.preorder ++ preorder_list es
end

/-- Whether a call is a call of an Event Sink callback. -/
def Call.is_sink_event : Call → Bool
  | Call.post_init => true
  | Call.pre_alloc _ _ _ => true
  | Call.post_successful_alloc _ _ _ _ _ _ => true
  | Call.pre_nonnull_free _ _ => true
  | Call.post_nonnull_free _ => true
  | Call.pre_nonnull_nonzero_realloc _ _ _ => true
  | Call.post_nonnull_nonzero_realloc _ _ _ _ _ => true
  | Call.initialize_hook => true
  | _ => false

/-- The sink callbacks a hook itself called, in order. -/
def sink_calls (t : List Ev) : List Call :=
  (t.map Ev.call).filter Call.is_sink_event

/-- The pointer arguments of the calls of `__next_hook_realloc` a hook itself
made, in order. -/
def next_hook_realloc_ptrs (t : List Ev) : List Nat :=
  t.filterMap (fun e =>
    match e.call with
    | Call.next_hook_realloc ptr _ _ => some ptr
    | _ => none)

/-- The alignment contract of the malloc and realloc paths: `pre_alloc`, given
the alignment `a`, leaves it at `a`. -/
def Sink.keeps_alignment {σ : Type} (S : Sink σ) (a : Nat) : Prop :=
  ∀ (size caller : Nat) (st : σ), (S.pre_alloc size a caller st).1.2 = a

/-- The realloc case tag of the data model. -/
inductive ReallocCase where
  | AsMalloc
  | AsFree
  | Genuine
  deriving DecidableEq, Repr

/-- The classification table of realloc: the tag is derived from
`(user_pointer == null, size == 0)`. -/
def realloc_case (userptr size : Nat) : ReallocCase :=
  if userptr = 0 then ReallocCase.AsMalloc
  else if size = 0 then ReallocCase.AsFree
  else ReallocCase.Genuine

/-- The branch a sink event belongs to.  `pre_alloc` belongs to none: it opens
the AsMalloc branch and is also the size-mutation step shared with the Genuine
branch. -/
def Call.realloc_branch : Call → Option ReallocCase
  | Call.post_successful_alloc _ _ _ _ _ _ => some ReallocCase.AsMalloc
  | Call.pre_nonnull_free _ _ => some ReallocCase.AsFree
  | Call.post_nonnull_free _ => some ReallocCase.AsFree
  | Call.pre_nonnull_nonzero_realloc _ _ _ => some ReallocCase.Genuine
  | Call.post_nonnull_nonzero_realloc _ _ _ _ _ => some ReallocCase.Genuine
  | _ => none

/-- The pre event of each branch of the classification table, for a call
`realloc(userptr, size, caller)` on a block of usable size `usable`. -/
def branch_pre_event (sizeof_void_ptr userptr size caller usable : Nat) : Call :=
  match realloc_case userptr size with
  | ReallocCase.AsMalloc => Call.pre_alloc size sizeof_void_ptr caller
  | ReallocCase.AsFree => Call.pre_nonnull_free userptr usable
  | ReallocCase.Genuine => Call.pre_nonnull_nonzero_realloc userptr size caller

/-- The name under which `generic.inc.c` makes the call that `event_hooks.c`
makes as `c`: `initialize_hook` stands for `post_init`, `__next_X_hook` for
`__next_hook_X`. -/
def Call.to_weak : Call → Call
  | Call.post_init => Call.initialize_hook
  | Call.next_hook_init => Call.next_initialize_hook
  | Call.next_hook_malloc size caller => Call.next_malloc_hook size caller
  | Call.next_hook_free ptr caller => Call.next_free_hook ptr caller
  | Call.next_hook_memalign alignment size caller =>
    Call.next_memalign_hook alignment size caller
  | Call.next_hook_realloc ptr size caller => Call.next_realloc_hook ptr size caller
  | c => c

/-- The call of the real allocator that takes the place of a next-in-chain
call: the same arguments without the caller. -/
def Call.to_real : Call → Call
  | Call.next_hook_malloc size _ => Call.real_malloc size
  | Call.next_hook_free ptr _ => Call.real_free ptr
  | Call.next_hook_memalign alignment size _ => Call.real_memalign alignment size
  | Call.next_hook_realloc ptr size _ => Call.real_realloc ptr size
  | c => c

/-- Rename the call at the root of a call tree. -/
def Ev.relabel (f : Call → Call) : Ev → Ev
  | Ev.mk c inner => Ev.mk (f c) inner

/-- Rename the calls a run itself made; value and state are kept. -/
def Res.relabel {σ α : Type} (f : Call → Call) (r : Res σ α) : Res σ α :=
  ⟨r.val, r.st, r.calls.map (Ev.relabel f)⟩

/-- The parameters of `generic.inc.c` are those of `event_hooks.c`: same
pointer size, sink and usable-size query, and translator functions that are the
translator macros. -/
def GenericEnv.agrees {σ : Type} (G : GenericEnv σ) (E : Env σ) : Prop :=
  G.sizeof_void_ptr = E.sizeof_void_ptr ∧ G.sink = E.sink
    ∧ G.malloc_usable_size = E.malloc_usable_size
    ∧ G.allocptr_to_userptr = ALLOCPTR_TO_USERPTR
    ∧ G.userptr_to_allocptr = USERPTR_TO_ALLOCPTR

/-- The sink that reserves a 64-byte trailer and, for requests below 100
bytes only, raises the alignment to 64. -/
def small_realigning_sink : Sink Unit where
  post_init := fun st => st
  pre_alloc := fun size alignment _ st =>
    (((size + 64) % 2 ^ 64, if size < 100 then 64 else alignment), st)
  post_successful_alloc := fun _ _ _ _ _ _ st => st
  pre_nonnull_free := fun _ _ st => st
  post_nonnull_free := fun _ st => st
  pre_nonnull_nonzero_realloc := fun _ _ _ st => st
  post_nonnull_nonzero_realloc := fun _ _ _ _ _ st => st

end MallocHooks

namespace MallocHooks

/-! ## Unfolding the recording monad -/

section Lemmas
variable {σ : Type}

theorem M.bind_def {α β : Type} (x : M σ α) (f : α → M σ β) : (x >>= f) = M.bind x f := rfl

theorem M.pure_def {α : Type} (a : α) : (Pure.pure a : M σ α) = M.pure a := rfl

end Lemmas

/-! ## `hook_malloc` -/

section Theorems
variable {σ : Type}

/-- C1: when `pre_alloc` turns `(s, sizeof(void*))` into `(s', sizeof(void*))`
and the next malloc returns a non-null `r` for `s'`, `hook_malloc` makes exactly
the calls `pre_alloc(s, sizeof(void*), c)`, `__next_hook_malloc(s', c)`,
`post_successful_alloc(r, s', sizeof(void*), s, sizeof(void*), c)`, in this order,
and returns `r`. -/
theorem hook_malloc_success (E : Env σ) (s c s' r : Nat) (st st1 st2 : σ) (inner : List Ev)
    (hpre : E.sink.pre_alloc s E.sizeof_void_ptr c st = ((s', E.sizeof_void_ptr), st1))
    (hnext : E.next_hook_malloc s' c st1 = ⟨some r, st2, inner⟩) (hr : r ≠ 0) :
    hook_malloc E s c st =
      ⟨some (ALLOCPTR_TO_USERPTR r),
       E.sink.post_successful_alloc r s' E.sizeof_void_ptr s E.sizeof_void_ptr c st2,
       [Ev.mk (Call.pre_alloc s E.sizeof_void_ptr c) [],
        Ev.mk (Call.next_hook_malloc s' c) inner,
        Ev.mk (Call.post_successful_alloc r s' E.sizeof_void_ptr s E.sizeof_void_ptr c) []]⟩ := by
  simp [hook_malloc, M.bind_def, M.pure_def, M.bind, M.pure, ev_pre_alloc,
    ev_post_successful_alloc, leaf, link, assert, hpre, hnext, hr]

/-- C1, size-doubling sink and `malloc(64)`: the next malloc receives 128 and
`post_successful_alloc` reports modified size 128, requested size 64. -/
theorem hook_malloc_success_witness :
    hook_malloc (toy_env doubling_sink) 64 7 () =
      ⟨some 4096, (),
       [Ev.mk (Call.pre_alloc 64 8 7) [],
        Ev.mk (Call.next_hook_malloc 128 7) [],
        Ev.mk (Call.post_successful_alloc 4096 128 8 64 8 7) []]⟩ :=
  hook_malloc_success (toy_env doubling_sink) 64 7 128 4096 () () () [] rfl rfl (by decide)

/-- C2: when the sink keeps the alignment and the next malloc returns null,
`hook_malloc` makes exactly the calls `pre_alloc` and `__next_hook_malloc` (no
post event), leaves the state as the next malloc left it, and returns null. -/
theorem hook_malloc_failure (E : Env σ) (s c s' : Nat) (st st1 st2 : σ) (inner : List Ev)
    (hpre : E.sink.pre_alloc s E.sizeof_void_ptr c st = ((s', E.sizeof_void_ptr), st1))
    (hnext : E.next_hook_malloc s' c st1 = ⟨some 0, st2, inner⟩) :
    hook_malloc E s c st =
      ⟨some 0, st2,
       [Ev.mk (Call.pre_alloc s E.sizeof_void_ptr c) [],
        Ev.mk (Call.next_hook_malloc s' c) inner]⟩ := by
  simp [hook_malloc, M.bind_def, M.pure_def, M.bind, M.pure, ev_pre_alloc,
    ev_post_successful_alloc, leaf, link, assert, hpre, hnext, ALLOCPTR_TO_USERPTR]

/-- C2, a request the toy allocator refuses. -/
theorem hook_malloc_failure_witness :
    hook_malloc (toy_env doubling_sink) 640000000 7 () =
      ⟨some 0, (),
       [Ev.mk (Call.pre_alloc 640000000 8 7) [],
        Ev.mk (Call.next_hook_malloc 1280000000 7) []]⟩ :=
  hook_malloc_failure (toy_env doubling_sink) 640000000 7 1280000000 () () () [] rfl rfl

/-! ## `hook_free` -/

/-- C3: for a non-null `p`, `hook_free` queries the usable size `u` of the
translated pointer, fires `pre_nonnull_free(p, u)`, calls the next free on the
translated pointer, and fires `post_nonnull_free(p)`, in this order and nothing
else; for a null pointer its only call is the one to the next free, so neither
`pre_nonnull_free` nor `post_nonnull_free` is fired. -/
theorem hook_free_events (E : Env σ) (p c u : Nat) (st st1 st2 : σ) (inner : List Ev)
    (hp : p ≠ 0)
    (hu : E.malloc_usable_size (USERPTR_TO_ALLOCPTR p) st = (u, st1))
    (hnext : E.next_hook_free (USERPTR_TO_ALLOCPTR p) c (E.sink.pre_nonnull_free p u st1)
      = ⟨some (), st2, inner⟩) :
    hook_free E p c st =
      ⟨some (), E.sink.post_nonnull_free p st2,
       [Ev.mk (Call.malloc_usable_size (USERPTR_TO_ALLOCPTR p)) [],
        Ev.mk (Call.pre_nonnull_free p u) [],
        Ev.mk (Call.next_hook_free (USERPTR_TO_ALLOCPTR p) c) inner,
        Ev.mk (Call.post_nonnull_free p) []]⟩
    ∧ ∀ (c0 : Nat) (st0 : σ), (hook_free E 0 c0 st0).calls =
        [Ev.mk (Call.next_hook_free (USERPTR_TO_ALLOCPTR 0) c0)
          (E.next_hook_free (USERPTR_TO_ALLOCPTR 0) c0 st0).calls] := by
  constructor
  · simp [hook_free, M.bind_def, M.pure_def, M.bind, M.pure, usable_size,
      ev_pre_nonnull_free, ev_post_nonnull_free, leaf, link, hp, hu, hnext]
  · intro c0 st0
    simp [hook_free, M.bind_def, M.pure_def, M.bind, M.pure, link]
    cases (E.next_hook_free (USERPTR_TO_ALLOCPTR 0) c0 st0).val <;> simp

/-- C3, freeing the block at `4096`. -/
theorem hook_free_events_witness :
    hook_free (toy_env identity_sink) 4096 7 () =
      ⟨some (), (),
       [Ev.mk (Call.malloc_usable_size 4096) [],
        Ev.mk (Call.pre_nonnull_free 4096 24) [],
        Ev.mk (Call.next_hook_free 4096 7) [],
        Ev.mk (Call.post_nonnull_free 4096) []]⟩
    ∧ ∀ (c0 : Nat) (st0 : Unit), (hook_free (toy_env identity_sink) 0 c0 st0).calls =
        [Ev.mk (Call.next_hook_free 0 c0) []] :=
  hook_free_events (toy_env identity_sink) 4096 7 24 () () () [] (by decide) rfl rfl

end Theorems

end MallocHooks

namespace MallocHooks

section Theorems2
variable {σ : Type}

/-! ## Null pointers -/

/-- C4 as stated fails: with the identity sink and the toy allocator,
`hook_free(null, 7)` does make a call, and `hook_realloc(null, 64, 7)` does call
the next realloc with a null pointer. -/
theorem null_pointer_reaches_next_hooks :
    ¬ ((hook_free (toy_env identity_sink) 0 7 ()).calls = [])
    ∧ ¬ (∀ e ∈ (hook_realloc (toy_env identity_sink) 0 64 7 ()).calls,
          ∀ size caller : Nat, e.call ≠ Call.next_hook_realloc 0 size caller) := by
  have hfree : (hook_free (toy_env identity_sink) 0 7 ()).calls
      = [Ev.mk (Call.next_hook_free 0 7) []] := rfl
  have hrealloc : (hook_realloc (toy_env identity_sink) 0 64 7 ()).calls
      = [Ev.mk (Call.pre_alloc 64 8 7) [], Ev.mk (Call.pre_alloc 64 8 7) [],
         Ev.mk (Call.next_hook_realloc 0 64 7) [],
         Ev.mk (Call.post_successful_alloc 4096 64 8 64 8 7) []] := rfl
  constructor
  · rw [hfree]
    exact List.cons_ne_nil _ _
  · rw [hrealloc]
    intro h
    exact h (Ev.mk (Call.next_hook_realloc 0 64 7) []) (by simp) 64 7 rfl

/-- C4 amended: for every sink, `hook_free(null, caller)` fires no sink event
and makes no usable-size query, its one call being the next free on the null
pointer; and with a sink that keeps the alignment contract
`hook_realloc(null, s, caller)` calls the next realloc exactly once, with the
null pointer. -/
theorem null_pointer_passed_to_next (E : Env σ) (s c : Nat) (st : σ) :
    (hook_free E 0 c st).calls =
        [Ev.mk (Call.next_hook_free 0 c) (E.next_hook_free 0 c st).calls]
    ∧ (E.sink.keeps_alignment E.sizeof_void_ptr →
        next_hook_realloc_ptrs (hook_realloc E 0 s c st).calls = [0]) := by
  constructor
  · simp [hook_free, M.bind_def, M.pure_def, M.bind, M.pure, link, USERPTR_TO_ALLOCPTR]
    cases (E.next_hook_free 0 c st).val <;> simp
  · intro hk
    rcases hp1 : E.sink.pre_alloc s E.sizeof_void_ptr c st with ⟨⟨s1, a1⟩, st1⟩
    by_cases h0 : s1 = 0
    · subst h0
      rcases hn : E.next_hook_realloc 0 0 c st1 with ⟨v, st2, inner⟩
      cases v with
      | none =>
        simp [hook_realloc, M.bind_def, M.pure_def, M.bind, M.pure, ev_pre_alloc,
          ev_post_successful_alloc, leaf, link, assert, USERPTR_TO_ALLOCPTR, hp1, hn,
          next_hook_realloc_ptrs, Ev.call]
      | some r =>
        by_cases hr : r = 0 <;>
        simp [hook_realloc, M.bind_def, M.pure_def, M.bind, M.pure, ev_pre_alloc,
          ev_post_successful_alloc, leaf, link, assert, USERPTR_TO_ALLOCPTR, hp1, hn, hr,
          next_hook_realloc_ptrs, Ev.call]
    · rcases hp2 : E.sink.pre_alloc s1 E.sizeof_void_ptr c st1 with ⟨⟨s2, a2⟩, st2⟩
      have h2 : a2 = E.sizeof_void_ptr := by
        have := hk s1 c st1
        rw [hp2] at this
        exact this
      subst h2
      rcases hn : E.next_hook_realloc 0 s2 c st2 with ⟨v, st3, inner⟩
      cases v with
      | none =>
        simp [hook_realloc, M.bind_def, M.pure_def, M.bind, M.pure, ev_pre_alloc,
          ev_post_successful_alloc, leaf, link, assert, USERPTR_TO_ALLOCPTR, hp1, hp2, hn, h0,
          next_hook_realloc_ptrs, Ev.call]
      | some r =>
        by_cases hr : r = 0 <;>
        simp [hook_realloc, M.bind_def, M.pure_def, M.bind, M.pure, ev_pre_alloc,
          ev_post_successful_alloc, leaf, link, assert, USERPTR_TO_ALLOCPTR, hp1, hp2, hn, h0, hr,
          next_hook_realloc_ptrs, Ev.call]

/-- C4 amended, over the toy allocator: the free half at the realigning sink,
which does not keep the alignment contract, and the realloc half at the identity
sink, which does. -/
theorem null_pointer_passed_to_next_witness :
    ((realigning_sink.pre_alloc 64 8 7 ()).1.2 ≠ 8
      ∧ (hook_free (toy_env realigning_sink) 0 7 ()).calls
        = [Ev.mk (Call.next_hook_free 0 7) []])
    ∧ ((toy_env identity_sink).sink.keeps_alignment 8
      ∧ next_hook_realloc_ptrs (hook_realloc (toy_env identity_sink) 0 64 7 ()).calls = [0]) :=
  ⟨⟨by decide, (null_pointer_passed_to_next (toy_env realigning_sink) 64 7 ()).1⟩,
   ⟨fun _ _ _ => rfl,
    (null_pointer_passed_to_next (toy_env identity_sink) 64 7 ()).2 (fun _ _ _ => rfl)⟩⟩

end Theorems2

end MallocHooks

namespace MallocHooks

section Theorems3
variable {σ : Type}

/-! ## `hook_realloc` -/

/-- C5, at the size-doubling sink and size 64: `hook_realloc(null, 64, 7)` fires
`pre_alloc` twice and reports requested size 128, where `hook_malloc(64, 7)`
fires it once and reports requested size 64. -/
theorem hook_realloc_null_fires_pre_alloc_twice :
    sink_calls (hook_realloc (toy_env doubling_sink) 0 64 7 ()).calls =
        [Call.pre_alloc 64 8 7, Call.pre_alloc 128 8 7,
         Call.post_successful_alloc 4096 256 8 128 8 7]
    ∧ sink_calls (hook_malloc (toy_env doubling_sink) 64 7 ()).calls =
        [Call.pre_alloc 64 8 7, Call.post_successful_alloc 4096 128 8 64 8 7]
    ∧ sink_calls (hook_realloc (toy_env doubling_sink) 0 64 7 ()).calls ≠
        sink_calls (hook_malloc (toy_env doubling_sink) 64 7 ()).calls := by
  refine ⟨rfl, rfl, ?_⟩
  decide

/-- C6: for a non-null `p`, `hook_realloc(p, 0, c)` queries the usable size `u`
of the translated pointer, fires `pre_nonnull_free(p, u)`, calls the next
realloc once with the translated pointer and size 0, and fires
`post_nonnull_free(p)` whatever pointer `r` the next realloc returned; it makes
no other call (no `pre_alloc`, no realloc event) and evaluates no assertion. -/
theorem hook_realloc_as_free (E : Env σ) (p c u r : Nat) (st st1 st2 : σ) (inner : List Ev)
    (hp : p ≠ 0)
    (hu : E.malloc_usable_size (USERPTR_TO_ALLOCPTR p) st = (u, st1))
    (hnext : E.next_hook_realloc (USERPTR_TO_ALLOCPTR p) 0 c (E.sink.pre_nonnull_free p u st1)
      = ⟨some r, st2, inner⟩) :
    hook_realloc E p 0 c st =
      ⟨some (ALLOCPTR_TO_USERPTR r), E.sink.post_nonnull_free p st2,
       [Ev.mk (Call.malloc_usable_size (USERPTR_TO_ALLOCPTR p)) [],
        Ev.mk (Call.pre_nonnull_free p u) [],
        Ev.mk (Call.next_hook_realloc (USERPTR_TO_ALLOCPTR p) 0 c) inner,
        Ev.mk (Call.post_nonnull_free p) []]⟩ := by
  simp [hook_realloc, M.bind_def, M.pure_def, M.bind, M.pure, usable_size,
    ev_pre_nonnull_free, ev_post_nonnull_free, leaf, link, hp, hu, hnext]

/-- C6, with a sink that would break the alignment contract if `pre_alloc` were
called. -/
theorem hook_realloc_as_free_witness :
    hook_realloc (toy_env realigning_sink) 4096 0 7 () =
      ⟨some 4096, (),
       [Ev.mk (Call.malloc_usable_size 4096) [],
        Ev.mk (Call.pre_nonnull_free 4096 24) [],
        Ev.mk (Call.next_hook_realloc 4096 0 7) [],
        Ev.mk (Call.post_nonnull_free 4096) []]⟩ :=
  hook_realloc_as_free (toy_env realigning_sink) 4096 7 24 4096 () () () [] (by decide) rfl rfl

/-- C7: for a non-null `p`, a non-zero `s` and a sink that keeps the alignment,
`hook_realloc(p, s, c)` makes exactly these calls, in this order: the
usable-size query on the translated pointer (giving `u`),
`pre_nonnull_nonzero_realloc(p, s, c)`, `pre_alloc(s, sizeof(void*), c)` (giving
`s'`), the next realloc on the translated pointer with `s'` (giving `r`), and
`post_nonnull_nonzero_realloc(p, s', u, c, r)`, whether `r` is null or not. -/
theorem hook_realloc_genuine (E : Env σ) (p s c u s' r : Nat) (st st1 st2 st3 : σ)
    (inner : List Ev) (hp : p ≠ 0) (hs : s ≠ 0)
    (hu : E.malloc_usable_size (USERPTR_TO_ALLOCPTR p) st = (u, st1))
    (hpre : E.sink.pre_alloc s E.sizeof_void_ptr c
        (E.sink.pre_nonnull_nonzero_realloc p s c st1) = ((s', E.sizeof_void_ptr), st2))
    (hnext : E.next_hook_realloc (USERPTR_TO_ALLOCPTR p) s' c st2 = ⟨some r, st3, inner⟩) :
    hook_realloc E p s c st =
      ⟨some (ALLOCPTR_TO_USERPTR r), E.sink.post_nonnull_nonzero_realloc p s' u c r st3,
       [Ev.mk (Call.malloc_usable_size (USERPTR_TO_ALLOCPTR p)) [],
        Ev.mk (Call.pre_nonnull_nonzero_realloc p s c) [],
        Ev.mk (Call.pre_alloc s E.sizeof_void_ptr c) [],
        Ev.mk (Call.next_hook_realloc (USERPTR_TO_ALLOCPTR p) s' c) inner,
        Ev.mk (Call.post_nonnull_nonzero_realloc p s' u c r) []]⟩ := by
  simp [hook_realloc, M.bind_def, M.pure_def, M.bind, M.pure, usable_size, ev_pre_alloc,
    ev_pre_nonnull_nonzero_realloc, ev_post_nonnull_nonzero_realloc, leaf, link, assert,
    hp, hs, hu, hpre, hnext]

/-- C7, a realloc the toy allocator refuses: the post event still fires, with
a null result. -/
theorem hook_realloc_genuine_witness :
    hook_realloc (toy_env doubling_sink) 4096 640000000 7 () =
      ⟨some 0, (),
       [Ev.mk (Call.malloc_usable_size 4096) [],
        Ev.mk (Call.pre_nonnull_nonzero_realloc 4096 640000000 7) [],
        Ev.mk (Call.pre_alloc 640000000 8 7) [],
        Ev.mk (Call.next_hook_realloc 4096 1280000000 7) [],
        Ev.mk (Call.post_nonnull_nonzero_realloc 4096 1280000000 24 7 0) []]⟩ :=
  hook_realloc_genuine (toy_env doubling_sink) 4096 640000000 7 24 1280000000 0 () () () ()
    [] (by decide) (by decide) rfl rfl rfl

/-! ## `hook_memalign` -/

/-- C8: when `pre_alloc` turns `(s, a)` into `(s', a')`, whatever `a'` is,
`hook_memalign` calls the next memalign with `(a', s', c)`; if that returns a
non-null `r` it then fires `post_successful_alloc(r, s', a', s, a, c)` and returns
`r`, and if it returns null no further call is made and null is returned.  The
run never aborts. -/
theorem hook_memalign_events (E : Env σ) (a s c s' a' r : Nat) (st st1 st2 : σ)
    (inner : List Ev)
    (hpre : E.sink.pre_alloc s a c st = ((s', a'), st1))
    (hnext : E.next_hook_memalign a' s' c st1 = ⟨some r, st2, inner⟩) :
    hook_memalign E a s c st =
      if r ≠ 0 then
        ⟨some r, E.sink.post_successful_alloc r s' a' s a c st2,
         [Ev.mk (Call.pre_alloc s a c) [],
          Ev.mk (Call.next_hook_memalign a' s' c) inner,
          Ev.mk (Call.post_successful_alloc r s' a' s a c) []]⟩
      else
        ⟨some 0, st2,
         [Ev.mk (Call.pre_alloc s a c) [],
          Ev.mk (Call.next_hook_memalign a' s' c) inner]⟩ := by
  by_cases hr : r = 0 <;>
  simp [hook_memalign, M.bind_def, M.pure_def, M.bind, M.pure, ev_pre_alloc,
    ev_post_successful_alloc, leaf, link, hpre, hnext, hr, ALLOCPTR_TO_USERPTR]

/-- C8, a sink that raises the alignment from 16 to 64: the requested
alignment reported is 16. -/
theorem hook_memalign_events_witness :
    hook_memalign (toy_env realigning_sink) 16 100 7 () =
      ⟨some 4096, (),
       [Ev.mk (Call.pre_alloc 100 16 7) [],
        Ev.mk (Call.next_hook_memalign 64 116 7) [],
        Ev.mk (Call.post_successful_alloc 4096 116 64 100 16 7) []]⟩ :=
  hook_memalign_events (toy_env realigning_sink) 16 100 7 116 64 4096 () () () [] rfl rfl

/-! ## Chaining -/

/-- C9: when A's next malloc is B's `hook_malloc`, both sinks keep the alignment
and B's next malloc (the allocator) returns a non-null `r`, A's `hook_malloc`
calls A's `pre_alloc`, then B's `hook_malloc` with the size `sA` that A's
`pre_alloc` produced, inside which B calls its `pre_alloc` on `sA`, the allocator
with the size `sB` that B's `pre_alloc` produced, and its `post_successful_alloc`;
then A calls its `post_successful_alloc`.  Each call is made exactly once; listed
in the order made they are A.pre, the entry into B, B.pre, the allocator call
(with whatever the allocator calls in turn), B.post, A.post. -/
theorem hook_malloc_chain_nested (EA EB : Env σ) (s c sA sB r : Nat) (st st1 st2 st3 : σ)
    (inner : List Ev)
    (hchain : EA.next_hook_malloc = hook_malloc EB)
    (hpreA : EA.sink.pre_alloc s EA.sizeof_void_ptr c st = ((sA, EA.sizeof_void_ptr), st1))
    (hpreB : EB.sink.pre_alloc sA EB.sizeof_void_ptr c st1 = ((sB, EB.sizeof_void_ptr), st2))
    (halloc : EB.next_hook_malloc sB c st2 = ⟨some r, st3, inner⟩) (hr : r ≠ 0) :
    hook_malloc EA s c st =
      ⟨some r,
       EA.sink.post_successful_alloc r sA EA.sizeof_void_ptr s EA.sizeof_void_ptr c
         (EB.sink.post_successful_alloc r sB EB.sizeof_void_ptr sA EB.sizeof_void_ptr c st3),
       [Ev.mk (Call.pre_alloc s EA.sizeof_void_ptr c) [],
        Ev.mk (Call.next_hook_malloc sA c)
          [Ev.mk (Call.pre_alloc sA EB.sizeof_void_ptr c) [],
           Ev.mk (Call.next_hook_malloc sB c) inner,
           Ev.mk (Call.post_successful_alloc r sB EB.sizeof_void_ptr sA EB.sizeof_void_ptr c) []],
        Ev.mk (Call.post_successful_alloc r sA EA.sizeof_void_ptr s EA.sizeof_void_ptr c) []]⟩
    ∧ preorder_list (hook_malloc EA s c st).calls =
      [Call.pre_alloc s EA.sizeof_void_ptr c, Call.next_hook_malloc sA c,
       Call.pre_alloc sA EB.sizeof_void_ptr c, Call.next_hook_malloc sB c]
      ++ preorder_list inner
      ++ [Call.post_successful_alloc r sB EB.sizeof_void_ptr sA EB.sizeof_void_ptr c,
          Call.post_successful_alloc r sA EA.sizeof_void_ptr s EA.sizeof_void_ptr c] := by
  have hB : hook_malloc EB sA c st1 =
      ⟨some r,
       EB.sink.post_successful_alloc r sB EB.sizeof_void_ptr sA EB.sizeof_void_ptr c st3,
       [Ev.mk (Call.pre_alloc sA EB.sizeof_void_ptr c) [],
        Ev.mk (Call.next_hook_malloc sB c) inner,
        Ev.mk (Call.post_successful_alloc r sB EB.sizeof_void_ptr sA EB.sizeof_void_ptr c) []]⟩ := by
    simp [hook_malloc, M.bind_def, M.pure_def, M.bind, M.pure, ev_pre_alloc,
      ev_post_successful_alloc, leaf, link, assert, hpreB, halloc, hr, ALLOCPTR_TO_USERPTR]
  have hA : EA.next_hook_malloc sA c st1 = hook_malloc EB sA c st1 := by rw [hchain]
  rw [hB] at hA
  have hcalls : hook_malloc EA s c st =
      ⟨some r,
       EA.sink.post_successful_alloc r sA EA.sizeof_void_ptr s EA.sizeof_void_ptr c
         (EB.sink.post_successful_alloc r sB EB.sizeof_void_ptr sA EB.sizeof_void_ptr c st3),
       [Ev.mk (Call.pre_alloc s EA.sizeof_void_ptr c) [],
        Ev.mk (Call.next_hook_malloc sA c)
          [Ev.mk (Call.pre_alloc sA EB.sizeof_void_ptr c) [],
           Ev.mk (Call.next_hook_malloc sB c) inner,
           Ev.mk (Call.post_successful_alloc r sB EB.sizeof_void_ptr sA EB.sizeof_void_ptr c) []],
        Ev.mk (Call.post_successful_alloc r sA EA.sizeof_void_ptr s EA.sizeof_void_ptr c) []]⟩ := by
    simp [hook_malloc, M.bind_def, M.pure_def, M.bind, M.pure, ev_pre_alloc,
      ev_post_successful_alloc, leaf, link, assert, hpreA, hA, hr, ALLOCPTR_TO_USERPTR]
  refine ⟨hcalls, ?_⟩
  rw [hcalls]
  simp [preorder_list, Ev.preorder]

/-- C9, the size-doubling sink (A) in front of the trailer sink (B) in front of
the toy allocator, `malloc(64)`: B is asked for 128, the allocator for 144, and
the calls in the order made are A.pre, B's hook, B.pre, the allocator, B.post,
A.post. -/
theorem hook_malloc_chain_nested_witness :
    hook_malloc (chain_env doubling_sink (toy_env trailer_sink)) 64 7 () =
      ⟨some 4096, (),
       [Ev.mk (Call.pre_alloc 64 8 7) [],
        Ev.mk (Call.next_hook_malloc 128 7)
          [Ev.mk (Call.pre_alloc 128 8 7) [],
           Ev.mk (Call.next_hook_malloc 144 7) [],
           Ev.mk (Call.post_successful_alloc 4096 144 8 128 8 7) []],
        Ev.mk (Call.post_successful_alloc 4096 128 8 64 8 7) []]⟩
    ∧ preorder_list (hook_malloc (chain_env doubling_sink (toy_env trailer_sink)) 64 7 ()).calls =
      [Call.pre_alloc 64 8 7, Call.next_hook_malloc 128 7, Call.pre_alloc 128 8 7,
       Call.next_hook_malloc 144 7, Call.post_successful_alloc 4096 144 8 128 8 7,
       Call.post_successful_alloc 4096 128 8 64 8 7] :=
  hook_malloc_chain_nested (chain_env doubling_sink (toy_env trailer_sink))
    (toy_env trailer_sink) 64 7 128 144 4096 () () () () [] rfl rfl rfl rfl (by decide)

/-! ## `generic_malloc_hook` -/

/-- C10, at the size-doubling sink, a request of 64 and a next malloc hook
present: `pre_alloc` produces 128, and `__next_malloc_hook` is called with 64. -/
theorem generic_malloc_hook_next_gets_requested_size :
    generic_malloc_hook (toy_generic_env doubling_sink true) 64 7 () =
      ⟨some 4096, (),
       [Ev.mk (Call.pre_alloc 64 8 7) [],
        Ev.mk (Call.next_malloc_hook 64 7) [],
        Ev.mk (Call.post_successful_alloc 4096 128 8 64 8 7) []]⟩
    ∧ generic_malloc_hook (toy_generic_env doubling_sink false) 64 7 () =
      ⟨some 4096, (),
       [Ev.mk (Call.pre_alloc 64 8 7) [],
        Ev.mk (Call.real_malloc 128) [],
        Ev.mk (Call.post_successful_alloc 4096 128 8 64 8 7) []]⟩ :=
  ⟨rfl, rfl⟩

end Theorems3

end MallocHooks

namespace MallocHooks

section Theorems4
variable {σ : Type}

/-! ## Transparency, init, translators -/

/-- C12: `hook_init` makes exactly two calls: the sink's `post_init` first,
then the next-in-chain init, and nothing else. -/
theorem hook_init_calls (E : Env σ) (st : σ) :
    hook_init E st =
      ⟨(E.next_hook_init (E.sink.post_init st)).val,
       (E.next_hook_init (E.sink.post_init st)).st,
       [Ev.mk Call.post_init [],
        Ev.mk Call.next_hook_init (E.next_hook_init (E.sink.post_init st)).calls]⟩ := by
  simp [hook_init, M.bind_def, M.bind, ev_post_init, leaf, link]

/-- C13: the default translators are both the identity, so translating an
allocation pointer to a user pointer and back gives the pointer again, null
included. -/
theorem translator_round_trip (x : Nat) :
    USERPTR_TO_ALLOCPTR (ALLOCPTR_TO_USERPTR x) = x
    ∧ ALLOCPTR_TO_USERPTR x = x ∧ USERPTR_TO_ALLOCPTR x = x
    ∧ USERPTR_TO_ALLOCPTR (ALLOCPTR_TO_USERPTR 0) = 0 :=
  ⟨rfl, rfl, rfl, rfl⟩

/-! ## The alignment contract -/

/-- C14: `hook_malloc` stops at its assertion, having called only `pre_alloc`,
exactly when `pre_alloc` left an alignment other than `sizeof(void*)`: then the
next malloc is not called and no post event fires.  Otherwise the next malloc is
called with the modified size, the outcome is the outcome of that call, and the
only further call is `post_successful_alloc` on a non-null result, reporting
`sizeof(void*)` as the modified alignment. -/
theorem hook_malloc_alignment_contract (E : Env σ) (s c : Nat) (st : σ) :
    (hook_malloc E s c st =
        ⟨none, (E.sink.pre_alloc s E.sizeof_void_ptr c st).2,
         [Ev.mk (Call.pre_alloc s E.sizeof_void_ptr c) []]⟩
      ↔ (E.sink.pre_alloc s E.sizeof_void_ptr c st).1.2 ≠ E.sizeof_void_ptr)
    ∧ ((E.sink.pre_alloc s E.sizeof_void_ptr c st).1.2 = E.sizeof_void_ptr →
      (hook_malloc E s c st).val =
        (E.next_hook_malloc (E.sink.pre_alloc s E.sizeof_void_ptr c st).1.1 c
          (E.sink.pre_alloc s E.sizeof_void_ptr c st).2).val
      ∧ (hook_malloc E s c st).calls =
        [Ev.mk (Call.pre_alloc s E.sizeof_void_ptr c) [],
         Ev.mk (Call.next_hook_malloc (E.sink.pre_alloc s E.sizeof_void_ptr c st).1.1 c)
          (E.next_hook_malloc (E.sink.pre_alloc s E.sizeof_void_ptr c st).1.1 c
            (E.sink.pre_alloc s E.sizeof_void_ptr c st).2).calls]
        ++ (match (E.next_hook_malloc (E.sink.pre_alloc s E.sizeof_void_ptr c st).1.1 c
              (E.sink.pre_alloc s E.sizeof_void_ptr c st).2).val with
            | some r =>
              if r = 0 then []
              else [Ev.mk (Call.post_successful_alloc r
                (E.sink.pre_alloc s E.sizeof_void_ptr c st).1.1 E.sizeof_void_ptr
                s E.sizeof_void_ptr c) []]
            | none => [])) := by
  rcases hp : E.sink.pre_alloc s E.sizeof_void_ptr c st with ⟨⟨s1, a1⟩, st1⟩
  by_cases ha : a1 = E.sizeof_void_ptr
  · subst ha
    rcases hn : E.next_hook_malloc s1 c st1 with ⟨v, st2, inner⟩
    cases v with
    | none =>
      simp [hook_malloc, M.bind_def, M.pure_def, M.bind, M.pure, ev_pre_alloc,
        ev_post_successful_alloc, leaf, link, assert, hp, hn]
    | some r =>
      by_cases hr : r = 0 <;>
      simp [hook_malloc, M.bind_def, M.pure_def, M.bind, M.pure, ev_pre_alloc,
        ev_post_successful_alloc, leaf, link, assert, hp, hn, hr, ALLOCPTR_TO_USERPTR]
  · simp [hook_malloc, M.bind_def, M.pure_def, M.bind, M.pure, ev_pre_alloc,
      ev_post_successful_alloc, leaf, link, assert, hp, ha]

/-- C14, both sides: the realigning sink makes `hook_malloc(64, 7)` stop at the
assertion, and under the size-doubling sink the modified alignment reported
is 8. -/
theorem hook_malloc_alignment_contract_witness :
    hook_malloc (toy_env realigning_sink) 64 7 () =
        ⟨none, (), [Ev.mk (Call.pre_alloc 64 8 7) []]⟩
    ∧ ((hook_malloc (toy_env doubling_sink) 64 7 ()).val = some 4096
      ∧ (hook_malloc (toy_env doubling_sink) 64 7 ()).calls =
        [Ev.mk (Call.pre_alloc 64 8 7) [], Ev.mk (Call.next_hook_malloc 128 7) [],
         Ev.mk (Call.post_successful_alloc 4096 128 8 64 8 7) []]) :=
  ⟨(hook_malloc_alignment_contract (toy_env realigning_sink) 64 7 ()).1.2 (by decide),
   (hook_malloc_alignment_contract (toy_env doubling_sink) 64 7 ()).2 rfl⟩

/-- C15, at the sink that realigns small requests: in `hook_realloc(null, 64, 7)`
the first `pre_alloc` leaves alignment 64, yet no assertion fails and the next
realloc is called; `hook_malloc(64, 7)` over the same sink stops at its
assertion. -/
theorem hook_realloc_null_first_alignment_unchecked :
    (small_realigning_sink.pre_alloc 64 8 7 ()).1 = (128, 64)
    ∧ hook_realloc (toy_env small_realigning_sink) 0 64 7 () =
      ⟨some 4096, (),
       [Ev.mk (Call.pre_alloc 64 8 7) [],
        Ev.mk (Call.pre_alloc 128 8 7) [],
        Ev.mk (Call.next_hook_realloc 0 192 7) [],
        Ev.mk (Call.post_successful_alloc 4096 192 8 128 8 7) []]⟩
    ∧ hook_malloc (toy_env small_realigning_sink) 64 7 () =
      ⟨none, (), [Ev.mk (Call.pre_alloc 64 8 7) []]⟩ :=
  ⟨rfl, rfl, rfl⟩

end Theorems4

end MallocHooks

namespace MallocHooks

section Theorems5
variable {σ : Type}

/-! ## The realloc classification -/

/-- C16: for every pointer, size and sink, the first sink event `hook_realloc`
fires is the pre event of the branch the classification table gives for
`(p, s)` (`pre_alloc` iff `p` is null, `pre_nonnull_free` iff `p` is non-null and
`s` is zero, `pre_nonnull_nonzero_realloc` otherwise); every branch-specific
event it fires, pre or post, belongs to that branch; `post_successful_alloc`
fires only for a non-null result; and in the AsFree branch `pre_alloc` does not
fire. -/
theorem hook_realloc_classification (E : Env σ) (p s c : Nat) (st : σ) :
    (sink_calls (hook_realloc E p s c st).calls).head? =
        some (branch_pre_event E.sizeof_void_ptr p s c
          (E.malloc_usable_size (USERPTR_TO_ALLOCPTR p) st).1)
    ∧ (∀ e ∈ (hook_realloc E p s c st).calls, ∀ k : ReallocCase,
        e.call.realloc_branch = some k → k = realloc_case p s)
    ∧ (∀ e ∈ (hook_realloc E p s c st).calls, ∀ r ms ma rs ra cl : Nat,
        e.call = Call.post_successful_alloc r ms ma rs ra cl → r ≠ 0)
    ∧ (realloc_case p s = ReallocCase.AsFree →
        ∀ e ∈ (hook_realloc E p s c st).calls, ∀ sz al cl : Nat,
          e.call ≠ Call.pre_alloc sz al cl) := by
  by_cases hp : p = 0
  · subst hp
    rcases hp1 : E.sink.pre_alloc s E.sizeof_void_ptr c st with ⟨⟨s1, a1⟩, st1⟩
    by_cases h0 : s1 = 0
    · subst h0
      rcases hn : E.next_hook_realloc 0 0 c st1 with ⟨v, st2, inner⟩
      cases v with
      | none =>
        simp [hook_realloc, M.bind_def, M.pure_def, M.bind, M.pure, usable_size, ev_pre_alloc,
          ev_post_successful_alloc, ev_pre_nonnull_free, ev_post_nonnull_free,
          ev_pre_nonnull_nonzero_realloc, ev_post_nonnull_nonzero_realloc, leaf, link,
          assert, sink_calls, Ev.call, Call.is_sink_event, Call.realloc_branch,
          branch_pre_event, realloc_case, ALLOCPTR_TO_USERPTR, USERPTR_TO_ALLOCPTR, hp1, hn]
      | some r =>
        by_cases hr : r = 0
        all_goals simp [hook_realloc, M.bind_def, M.pure_def, M.bind, M.pure, usable_size, ev_pre_alloc,
          ev_post_successful_alloc, ev_pre_nonnull_free, ev_post_nonnull_free,
          ev_pre_nonnull_nonzero_realloc, ev_post_nonnull_nonzero_realloc, leaf, link,
          assert, sink_calls, Ev.call, Call.is_sink_event, Call.realloc_branch,
          branch_pre_event, realloc_case, ALLOCPTR_TO_USERPTR, USERPTR_TO_ALLOCPTR, hp1, hn, hr]
        intro r1 _ _ _ _ _ h1 _ _ _ _ _
        exact h1 ▸ hr
    · rcases hp2 : E.sink.pre_alloc s1 E.sizeof_void_ptr c st1 with ⟨⟨s2, a2⟩, st2⟩
      by_cases ha : a2 = E.sizeof_void_ptr
      · subst ha
        rcases hn : E.next_hook_realloc 0 s2 c st2 with ⟨v, st3, inner⟩
        cases v with
        | none =>
          simp [hook_realloc, M.bind_def, M.pure_def, M.bind, M.pure, usable_size, ev_pre_alloc,
          ev_post_successful_alloc, ev_pre_nonnull_free, ev_post_nonnull_free,
          ev_pre_nonnull_nonzero_realloc, ev_post_nonnull_nonzero_realloc, leaf, link,
          assert, sink_calls, Ev.call, Call.is_sink_event, Call.realloc_branch,
          branch_pre_event, realloc_case, ALLOCPTR_TO_USERPTR, USERPTR_TO_ALLOCPTR, hp1, hp2, hn, h0]
        | some r =>
          by_cases hr : r = 0
          all_goals simp [hook_realloc, M.bind_def, M.pure_def, M.bind, M.pure, usable_size, ev_pre_alloc,
          ev_post_successful_alloc, ev_pre_nonnull_free, ev_post_nonnull_free,
          ev_pre_nonnull_nonzero_realloc, ev_post_nonnull_nonzero_realloc, leaf, link,
          assert, sink_calls, Ev.call, Call.is_sink_event, Call.realloc_branch,
          branch_pre_event, realloc_case, ALLOCPTR_TO_USERPTR, USERPTR_TO_ALLOCPTR, hp1, hp2, hn, h0, hr]
          intro r1 _ _ _ _ _ h1 _ _ _ _ _
          exact h1 ▸ hr
      · simp [hook_realloc, M.bind_def, M.pure_def, M.bind, M.pure, usable_size, ev_pre_alloc,
          ev_post_successful_alloc, ev_pre_nonnull_free, ev_post_nonnull_free,
          ev_pre_nonnull_nonzero_realloc, ev_post_nonnull_nonzero_realloc, leaf, link,
          assert, sink_calls, Ev.call, Call.is_sink_event, Call.realloc_branch,
          branch_pre_event, realloc_case, ALLOCPTR_TO_USERPTR, USERPTR_TO_ALLOCPTR, hp1, hp2, h0, ha]
  · rcases hu : E.malloc_usable_size p st with ⟨u, st1⟩
    by_cases hs : s = 0
    · subst hs
      rcases hn : E.next_hook_realloc p 0 c (E.sink.pre_nonnull_free p u st1)
        with ⟨v, st2, inner⟩
      cases v <;>
        simp [hook_realloc, M.bind_def, M.pure_def, M.bind, M.pure, usable_size, ev_pre_alloc,
          ev_post_successful_alloc, ev_pre_nonnull_free, ev_post_nonnull_free,
          ev_pre_nonnull_nonzero_realloc, ev_post_nonnull_nonzero_realloc, leaf, link,
          assert, sink_calls, Ev.call, Call.is_sink_event, Call.realloc_branch,
          branch_pre_event, realloc_case, ALLOCPTR_TO_USERPTR, USERPTR_TO_ALLOCPTR, hp, hu, hn]
    · rcases hp2 : E.sink.pre_alloc s E.sizeof_void_ptr c
        (E.sink.pre_nonnull_nonzero_realloc p s c st1) with ⟨⟨s2, a2⟩, st2⟩
      by_cases ha : a2 = E.sizeof_void_ptr
      · subst ha
        rcases hn : E.next_hook_realloc p s2 c st2 with ⟨v, st3, inner⟩
        cases v <;>
          simp [hook_realloc, M.bind_def, M.pure_def, M.bind, M.pure, usable_size, ev_pre_alloc,
          ev_post_successful_alloc, ev_pre_nonnull_free, ev_post_nonnull_free,
          ev_pre_nonnull_nonzero_realloc, ev_post_nonnull_nonzero_realloc, leaf, link,
          assert, sink_calls, Ev.call, Call.is_sink_event, Call.realloc_branch,
          branch_pre_event, realloc_case, ALLOCPTR_TO_USERPTR, USERPTR_TO_ALLOCPTR, hp, hs, hu, hp2, hn]
      · simp [hook_realloc, M.bind_def, M.pure_def, M.bind, M.pure, usable_size, ev_pre_alloc,
          ev_post_successful_alloc, ev_pre_nonnull_free, ev_post_nonnull_free,
          ev_pre_nonnull_nonzero_realloc, ev_post_nonnull_nonzero_realloc, leaf, link,
          assert, sink_calls, Ev.call, Call.is_sink_event, Call.realloc_branch,
          branch_pre_event, realloc_case, ALLOCPTR_TO_USERPTR, USERPTR_TO_ALLOCPTR, hp, hs, hu, hp2, ha]

/-- C16, a sink that would change the alignment and a request of size zero on
the block at `4096`: the events are those of the AsFree branch. -/
theorem hook_realloc_classification_witness :
    (sink_calls (hook_realloc (toy_env realigning_sink) 4096 0 7 ()).calls).head? =
        some (Call.pre_nonnull_free 4096 24)
    ∧ (∀ e ∈ (hook_realloc (toy_env realigning_sink) 4096 0 7 ()).calls,
        ∀ k : ReallocCase, e.call.realloc_branch = some k → k = ReallocCase.AsFree)
    ∧ (∀ e ∈ (hook_realloc (toy_env realigning_sink) 4096 0 7 ()).calls,
        ∀ r ms ma rs ra cl : Nat,
        e.call = Call.post_successful_alloc r ms ma rs ra cl → r ≠ 0)
    ∧ (realloc_case 4096 0 = ReallocCase.AsFree →
        ∀ e ∈ (hook_realloc (toy_env realigning_sink) 4096 0 7 ()).calls,
          ∀ sz al cl : Nat, e.call ≠ Call.pre_alloc sz al cl) :=
  hook_realloc_classification (toy_env realigning_sink) 4096 0 7 ()

/-- C18: in `hook_realloc(null, s, c)` the first `pre_alloc` receives
`(s, sizeof(void*))` and yields the size `s1`, its alignment output `a1` being
dropped unchecked.  If `s1` is non-zero a second `pre_alloc` receives
`(s1, sizeof(void*))` and yields `s2`, the next realloc is called with
`(null, s2)`, and a non-null result is reported with modified size `s2` and
requested size `s1`.  If `s1` is zero there is no second `pre_alloc`, the next
realloc is called with `(null, 0)`, and a non-null result is reported with
modified size 0 and requested size 0. -/
theorem hook_realloc_null_two_stage (E : Env σ) (s c s1 a1 : Nat) (st st1 : σ)
    (h1 : E.sink.pre_alloc s E.sizeof_void_ptr c st = ((s1, a1), st1)) :
    (s1 ≠ 0 → ∀ (s2 r : Nat) (st2 st3 : σ) (inner : List Ev),
      E.sink.pre_alloc s1 E.sizeof_void_ptr c st1 = ((s2, E.sizeof_void_ptr), st2) →
      E.next_hook_realloc (USERPTR_TO_ALLOCPTR 0) s2 c st2 = ⟨some r, st3, inner⟩ → r ≠ 0 →
      hook_realloc E 0 s c st =
        ⟨some (ALLOCPTR_TO_USERPTR r),
         E.sink.post_successful_alloc r s2 E.sizeof_void_ptr s1 E.sizeof_void_ptr c st3,
         [Ev.mk (Call.pre_alloc s E.sizeof_void_ptr c) [],
          Ev.mk (Call.pre_alloc s1 E.sizeof_void_ptr c) [],
          Ev.mk (Call.next_hook_realloc (USERPTR_TO_ALLOCPTR 0) s2 c) inner,
          Ev.mk (Call.post_successful_alloc r s2 E.sizeof_void_ptr s1 E.sizeof_void_ptr c)
            []]⟩)
    ∧ (s1 = 0 → ∀ (r : Nat) (st2 : σ) (inner : List Ev),
      E.next_hook_realloc (USERPTR_TO_ALLOCPTR 0) 0 c st1 = ⟨some r, st2, inner⟩ → r ≠ 0 →
      hook_realloc E 0 s c st =
        ⟨some (ALLOCPTR_TO_USERPTR r),
         E.sink.post_successful_alloc r 0 E.sizeof_void_ptr 0 E.sizeof_void_ptr c st2,
         [Ev.mk (Call.pre_alloc s E.sizeof_void_ptr c) [],
          Ev.mk (Call.next_hook_realloc (USERPTR_TO_ALLOCPTR 0) 0 c) inner,
          Ev.mk (Call.post_successful_alloc r 0 E.sizeof_void_ptr 0 E.sizeof_void_ptr c)
            []]⟩) := by
  constructor
  · intro h0 s2 r st2 st3 inner h2 hn hr
    simp [USERPTR_TO_ALLOCPTR] at hn
    simp [hook_realloc, M.bind_def, M.pure_def, M.bind, M.pure, ev_pre_alloc,
      ev_post_successful_alloc, leaf, link, assert, USERPTR_TO_ALLOCPTR, ALLOCPTR_TO_USERPTR,
      h1, h2, hn, h0, hr]
  · intro h0 r st2 inner hn hr
    subst h0
    simp [USERPTR_TO_ALLOCPTR] at hn
    simp [hook_realloc, M.bind_def, M.pure_def, M.bind, M.pure, ev_pre_alloc,
      ev_post_successful_alloc, leaf, link, assert, USERPTR_TO_ALLOCPTR, ALLOCPTR_TO_USERPTR,
      h1, hn, hr]

/-- C18, the size-doubling sink: for `s = 64` the next realloc receives 256 and
the requested size reported is 128; for `s = 0` the next realloc receives 0 and
both sizes reported are 0. -/
theorem hook_realloc_null_two_stage_witness :
    hook_realloc (toy_env doubling_sink) 0 64 7 () =
      ⟨some 4096, (),
       [Ev.mk (Call.pre_alloc 64 8 7) [],
        Ev.mk (Call.pre_alloc 128 8 7) [],
        Ev.mk (Call.next_hook_realloc 0 256 7) [],
        Ev.mk (Call.post_successful_alloc 4096 256 8 128 8 7) []]⟩
    ∧ hook_realloc (toy_env doubling_sink) 0 0 7 () =
      ⟨some 4096, (),
       [Ev.mk (Call.pre_alloc 0 8 7) [],
        Ev.mk (Call.next_hook_realloc 0 0 7) [],
        Ev.mk (Call.post_successful_alloc 4096 0 8 0 8 7) []]⟩ :=
  ⟨(hook_realloc_null_two_stage (toy_env doubling_sink) 64 7 128 8 () () rfl).1
      (by decide) 256 4096 () () [] rfl rfl (by decide),
   (hook_realloc_null_two_stage (toy_env doubling_sink) 0 7 0 8 () () rfl).2
      rfl 4096 () [] rfl (by decide)⟩

end Theorems5

end MallocHooks

namespace MallocHooks

/-! ## The two variants side by side -/

section Variants
variable {σ : Type}

/-- With its next hook present, `generic_free_hook` runs as `hook_free`. -/
theorem generic_free_hook_present (G : GenericEnv σ) (E : Env σ) (hag : G.agrees E)
    (hnext : G.next_free_hook = some E.next_hook_free) (p c : Nat) (st : σ) :
    generic_free_hook G p c st = (hook_free E p c st).relabel Call.to_weak := by
  obtain ⟨hsz, hsink, hus, ha2u, hu2a⟩ := hag
  by_cases hp : p = 0
  · subst hp
    rcases hn : E.next_hook_free 0 c st with ⟨v, st2, inner⟩
    cases v <;>
    simp [generic_free_hook, hook_free, M.bind_def, M.pure_def, M.bind, M.pure, usable_size,
      ev_pre_nonnull_free, ev_post_nonnull_free, leaf, link, Res.relabel, Ev.relabel,
      Call.to_weak, USERPTR_TO_ALLOCPTR, hsink, hus, hu2a, hnext, hn]
  · rcases hu : E.malloc_usable_size p st with ⟨u, st1⟩
    rcases hn : E.next_hook_free p c (E.sink.pre_nonnull_free p u st1) with ⟨v, st2, inner⟩
    cases v <;>
    simp [generic_free_hook, hook_free, M.bind_def, M.pure_def, M.bind, M.pure, usable_size,
      ev_pre_nonnull_free, ev_post_nonnull_free, leaf, link, Res.relabel, Ev.relabel,
      Call.to_weak, USERPTR_TO_ALLOCPTR, hsink, hus, hu2a, hnext, hn, hp, hu]

/-- With its next hook absent, `generic_free_hook` runs as `hook_free` over a
next free that is the real free without the caller. -/
theorem generic_free_hook_absent (G : GenericEnv σ) (E : Env σ) (hag : G.agrees E)
    (hnext : G.next_free_hook = none)
    (hreal : E.next_hook_free = fun ptr _ => G.real_free ptr) (p c : Nat) (st : σ) :
    generic_free_hook G p c st = (hook_free E p c st).relabel Call.to_real := by
  obtain ⟨hsz, hsink, hus, ha2u, hu2a⟩ := hag
  by_cases hp : p = 0
  · subst hp
    rcases hn : G.real_free 0 st with ⟨v, st2, inner⟩
    cases v <;>
    simp [generic_free_hook, hook_free, M.bind_def, M.pure_def, M.bind, M.pure, usable_size,
      ev_pre_nonnull_free, ev_post_nonnull_free, leaf, link, Res.relabel, Ev.relabel,
      Call.to_real, USERPTR_TO_ALLOCPTR, hsink, hus, hu2a, hnext, hreal, hn]
  · rcases hu : E.malloc_usable_size p st with ⟨u, st1⟩
    rcases hn : G.real_free p (E.sink.pre_nonnull_free p u st1) with ⟨v, st2, inner⟩
    cases v <;>
    simp [generic_free_hook, hook_free, M.bind_def, M.pure_def, M.bind, M.pure, usable_size,
      ev_pre_nonnull_free, ev_post_nonnull_free, leaf, link, Res.relabel, Ev.relabel,
      Call.to_real, USERPTR_TO_ALLOCPTR, hsink, hus, hu2a, hnext, hreal, hn, hp, hu]

/-- With its next hook present, `generic_memalign_hook` runs as `hook_memalign`. -/
theorem generic_memalign_hook_present (G : GenericEnv σ) (E : Env σ) (hag : G.agrees E)
    (hnext : G.next_memalign_hook = some E.next_hook_memalign) (a s c : Nat) (st : σ) :
    generic_memalign_hook G a s c st = (hook_memalign E a s c st).relabel Call.to_weak := by
  obtain ⟨hsz, hsink, hus, ha2u, hu2a⟩ := hag
  rcases hp : E.sink.pre_alloc s a c st with ⟨⟨s1, a1⟩, st1⟩
  rcases hn : E.next_hook_memalign a1 s1 c st1 with ⟨v, st2, inner⟩
  cases v with
  | none =>
    simp [generic_memalign_hook, hook_memalign, M.bind_def, M.pure_def, M.bind, M.pure,
      ev_pre_alloc, ev_post_successful_alloc, leaf, link, Res.relabel, Ev.relabel,
      Call.to_weak, ALLOCPTR_TO_USERPTR, hsink, ha2u, hnext, hp, hn]
  | some r =>
    by_cases hr : r = 0 <;>
    simp [generic_memalign_hook, hook_memalign, M.bind_def, M.pure_def, M.bind, M.pure,
      ev_pre_alloc, ev_post_successful_alloc, leaf, link, Res.relabel, Ev.relabel,
      Call.to_weak, ALLOCPTR_TO_USERPTR, hsink, ha2u, hnext, hp, hn, hr]

/-- With its next hook absent, `generic_memalign_hook` runs as `hook_memalign`
over a next memalign that is the real memalign without the caller. -/
theorem generic_memalign_hook_absent (G : GenericEnv σ) (E : Env σ) (hag : G.agrees E)
    (hnext : G.next_memalign_hook = none)
    (hreal : E.next_hook_memalign = fun alignment size _ => G.real_memalign alignment size)
    (a s c : Nat) (st : σ) :
    generic_memalign_hook G a s c st = (hook_memalign E a s c st).relabel Call.to_real := by
  obtain ⟨hsz, hsink, hus, ha2u, hu2a⟩ := hag
  rcases hp : E.sink.pre_alloc s a c st with ⟨⟨s1, a1⟩, st1⟩
  rcases hn : G.real_memalign a1 s1 st1 with ⟨v, st2, inner⟩
  cases v with
  | none =>
    simp [generic_memalign_hook, hook_memalign, M.bind_def, M.pure_def, M.bind, M.pure,
      ev_pre_alloc, ev_post_successful_alloc, leaf, link, Res.relabel, Ev.relabel,
      Call.to_real, ALLOCPTR_TO_USERPTR, hsink, ha2u, hnext, hreal, hp, hn]
  | some r =>
    by_cases hr : r = 0 <;>
    simp [generic_memalign_hook, hook_memalign, M.bind_def, M.pure_def, M.bind, M.pure,
      ev_pre_alloc, ev_post_successful_alloc, leaf, link, Res.relabel, Ev.relabel,
      Call.to_real, ALLOCPTR_TO_USERPTR, hsink, ha2u, hnext, hreal, hp, hn, hr]

/-- With its next hook present, `generic_realloc_hook` runs as `hook_realloc`. -/
theorem generic_realloc_hook_present (G : GenericEnv σ) (E : Env σ) (hag : G.agrees E)
    (hnext : G.next_realloc_hook = some E.next_hook_realloc) (p s c : Nat) (st : σ) :
    generic_realloc_hook G p s c st = (hook_realloc E p s c st).relabel Call.to_weak := by
  obtain ⟨hsz, hsink, hus, ha2u, hu2a⟩ := hag
  by_cases hp : p = 0
  · subst hp
    rcases hp1 : E.sink.pre_alloc s E.sizeof_void_ptr c st with ⟨⟨s1, a1⟩, st1⟩
    by_cases h0 : s1 = 0
    · subst h0
      rcases hn : E.next_hook_realloc 0 0 c st1 with ⟨v, st2, inner⟩
      cases v with
      | none =>
        simp [generic_realloc_hook, hook_realloc, M.bind_def, M.pure_def, M.bind, M.pure,
          usable_size, ev_pre_alloc, ev_post_successful_alloc, ev_pre_nonnull_free,
          ev_post_nonnull_free, ev_pre_nonnull_nonzero_realloc,
          ev_post_nonnull_nonzero_realloc, leaf, link, assert, Res.relabel, Ev.relabel,
          Call.to_weak, ALLOCPTR_TO_USERPTR, USERPTR_TO_ALLOCPTR, hsz, hsink, hus, ha2u, hu2a,
          hnext, hp1, hn]
      | some r =>
        by_cases hr : r = 0 <;>
        simp [generic_realloc_hook, hook_realloc, M.bind_def, M.pure_def, M.bind, M.pure,
          usable_size, ev_pre_alloc, ev_post_successful_alloc, ev_pre_nonnull_free,
          ev_post_nonnull_free, ev_pre_nonnull_nonzero_realloc,
          ev_post_nonnull_nonzero_realloc, leaf, link, assert, Res.relabel, Ev.relabel,
          Call.to_weak, ALLOCPTR_TO_USERPTR, USERPTR_TO_ALLOCPTR, hsz, hsink, hus, ha2u, hu2a,
          hnext, hp1, hn, hr]
    · rcases hp2 : E.sink.pre_alloc s1 E.sizeof_void_ptr c st1 with ⟨⟨s2, a2⟩, st2⟩
      by_cases ha : a2 = E.sizeof_void_ptr
      · subst ha
        rcases hn : E.next_hook_realloc 0 s2 c st2 with ⟨v, st3, inner⟩
        cases v with
        | none =>
          simp [generic_realloc_hook, hook_realloc, M.bind_def, M.pure_def, M.bind, M.pure,
          usable_size, ev_pre_alloc, ev_post_successful_alloc, ev_pre_nonnull_free,
          ev_post_nonnull_free, ev_pre_nonnull_nonzero_realloc,
          ev_post_nonnull_nonzero_realloc, leaf, link, assert, Res.relabel, Ev.relabel,
          Call.to_weak, ALLOCPTR_TO_USERPTR, USERPTR_TO_ALLOCPTR, hsz, hsink, hus, ha2u, hu2a,
          hnext, hp1, hp2, hn, h0]
        | some r =>
          by_cases hr : r = 0 <;>
          simp [generic_realloc_hook, hook_realloc, M.bind_def, M.pure_def, M.bind, M.pure,
          usable_size, ev_pre_alloc, ev_post_successful_alloc, ev_pre_nonnull_free,
          ev_post_nonnull_free, ev_pre_nonnull_nonzero_realloc,
          ev_post_nonnull_nonzero_realloc, leaf, link, assert, Res.relabel, Ev.relabel,
          Call.to_weak, ALLOCPTR_TO_USERPTR, USERPTR_TO_ALLOCPTR, hsz, hsink, hus, ha2u, hu2a,
          hnext, hp1, hp2, hn, h0, hr]
      · simp [generic_realloc_hook, hook_realloc, M.bind_def, M.pure_def, M.bind, M.pure,
          usable_size, ev_pre_alloc, ev_post_successful_alloc, ev_pre_nonnull_free,
          ev_post_nonnull_free, ev_pre_nonnull_nonzero_realloc,
          ev_post_nonnull_nonzero_realloc, leaf, link, assert, Res.relabel, Ev.relabel,
          Call.to_weak, ALLOCPTR_TO_USERPTR, USERPTR_TO_ALLOCPTR, hsz, hsink, hus, ha2u, hu2a,
          hnext, hp1, hp2, h0, ha]
  · rcases hu : E.malloc_usable_size p st with ⟨u, st1⟩
    by_cases hs : s = 0
    · subst hs
      rcases hn : E.next_hook_realloc p 0 c (E.sink.pre_nonnull_free p u st1)
        with ⟨v, st2, inner⟩
      cases v <;>
        simp [generic_realloc_hook, hook_realloc, M.bind_def, M.pure_def, M.bind, M.pure,
          usable_size, ev_pre_alloc, ev_post_successful_alloc, ev_pre_nonnull_free,
          ev_post_nonnull_free, ev_pre_nonnull_nonzero_realloc,
          ev_post_nonnull_nonzero_realloc, leaf, link, assert, Res.relabel, Ev.relabel,
          Call.to_weak, ALLOCPTR_TO_USERPTR, USERPTR_TO_ALLOCPTR, hsz, hsink, hus, ha2u, hu2a,
          hnext, hp, hu, hn]
    · rcases hp2 : E.sink.pre_alloc s E.sizeof_void_ptr c
        (E.sink.pre_nonnull_nonzero_realloc p s c st1) with ⟨⟨s2, a2⟩, st2⟩
      by_cases ha : a2 = E.sizeof_void_ptr
      · subst ha
        rcases hn : E.next_hook_realloc p s2 c st2 with ⟨v, st3, inner⟩
        cases v <;>
          simp [generic_realloc_hook, hook_realloc, M.bind_def, M.pure_def, M.bind, M.pure,
          usable_size, ev_pre_alloc, ev_post_successful_alloc, ev_pre_nonnull_free,
          ev_post_nonnull_free, ev_pre_nonnull_nonzero_realloc,
          ev_post_nonnull_nonzero_realloc, leaf, link, assert, Res.relabel, Ev.relabel,
          Call.to_weak, ALLOCPTR_TO_USERPTR, USERPTR_TO_ALLOCPTR, hsz, hsink, hus, ha2u, hu2a,
          hnext, hp, hs, hu, hp2, hn]
      · simp [generic_realloc_hook, hook_realloc, M.bind_def, M.pure_def, M.bind, M.pure,
          usable_size, ev_pre_alloc, ev_post_successful_alloc, ev_pre_nonnull_free,
          ev_post_nonnull_free, ev_pre_nonnull_nonzero_realloc,
          ev_post_nonnull_nonzero_realloc, leaf, link, assert, Res.relabel, Ev.relabel,
          Call.to_weak, ALLOCPTR_TO_USERPTR, USERPTR_TO_ALLOCPTR, hsz, hsink, hus, ha2u, hu2a,
          hnext, hp, hs, hu, hp2, ha]

/-- With its next hook absent, `generic_realloc_hook` runs as `hook_realloc`
over a next realloc that is the real realloc without the caller. -/
theorem generic_realloc_hook_absent (G : GenericEnv σ) (E : Env σ) (hag : G.agrees E)
    (hnext : G.next_realloc_hook = none)
    (hreal : E.next_hook_realloc = fun ptr size _ => G.real_realloc ptr size)
    (p s c : Nat) (st : σ) :
    generic_realloc_hook G p s c st = (hook_realloc E p s c st).relabel Call.to_real := by
  obtain ⟨hsz, hsink, hus, ha2u, hu2a⟩ := hag
  by_cases hp : p = 0
  · subst hp
    rcases hp1 : E.sink.pre_alloc s E.sizeof_void_ptr c st with ⟨⟨s1, a1⟩, st1⟩
    by_cases h0 : s1 = 0
    · subst h0
      rcases hn : G.real_realloc 0 0 st1 with ⟨v, st2, inner⟩
      cases v with
      | none =>
        simp [generic_realloc_hook, hook_realloc, M.bind_def, M.pure_def, M.bind, M.pure,
          usable_size, ev_pre_alloc, ev_post_successful_alloc, ev_pre_nonnull_free,
          ev_post_nonnull_free, ev_pre_nonnull_nonzero_realloc,
          ev_post_nonnull_nonzero_realloc, leaf, link, assert, Res.relabel, Ev.relabel,
          Call.to_real, ALLOCPTR_TO_USERPTR, USERPTR_TO_ALLOCPTR, hsz, hsink, hus, ha2u, hu2a,
          hnext, hreal, hp1, hn]
      | some r =>
        by_cases hr : r = 0 <;>
        simp [generic_realloc_hook, hook_realloc, M.bind_def, M.pure_def, M.bind, M.pure,
          usable_size, ev_pre_alloc, ev_post_successful_alloc, ev_pre_nonnull_free,
          ev_post_nonnull_free, ev_pre_nonnull_nonzero_realloc,
          ev_post_nonnull_nonzero_realloc, leaf, link, assert, Res.relabel, Ev.relabel,
          Call.to_real, ALLOCPTR_TO_USERPTR, USERPTR_TO_ALLOCPTR, hsz, hsink, hus, ha2u, hu2a,
          hnext, hreal, hp1, hn, hr]
    · rcases hp2 : E.sink.pre_alloc s1 E.sizeof_void_ptr c st1 with ⟨⟨s2, a2⟩, st2⟩
      by_cases ha : a2 = E.sizeof_void_ptr
      · subst ha
        rcases hn : G.real_realloc 0 s2 st2 with ⟨v, st3, inner⟩
        cases v with
        | none =>
          simp [generic_realloc_hook, hook_realloc, M.bind_def, M.pure_def, M.bind, M.pure,
          usable_size, ev_pre_alloc, ev_post_successful_alloc, ev_pre_nonnull_free,
          ev_post_nonnull_free, ev_pre_nonnull_nonzero_realloc,
          ev_post_nonnull_nonzero_realloc, leaf, link, assert, Res.relabel, Ev.relabel,
          Call.to_real, ALLOCPTR_TO_USERPTR, USERPTR_TO_ALLOCPTR, hsz, hsink, hus, ha2u, hu2a,
          hnext, hreal, hp1, hp2, hn, h0]
        | some r =>
          by_cases hr : r = 0 <;>
          simp [generic_realloc_hook, hook_realloc, M.bind_def, M.pure_def, M.bind, M.pure,
          usable_size, ev_pre_alloc, ev_post_successful_alloc, ev_pre_nonnull_free,
          ev_post_nonnull_free, ev_pre_nonnull_nonzero_realloc,
          ev_post_nonnull_nonzero_realloc, leaf, link, assert, Res.relabel, Ev.relabel,
          Call.to_real, ALLOCPTR_TO_USERPTR, USERPTR_TO_ALLOCPTR, hsz, hsink, hus, ha2u, hu2a,
          hnext, hreal, hp1, hp2, hn, h0, hr]
      · simp [generic_realloc_hook, hook_realloc, M.bind_def, M.pure_def, M.bind, M.pure,
          usable_size, ev_pre_alloc, ev_post_successful_alloc, ev_pre_nonnull_free,
          ev_post_nonnull_free, ev_pre_nonnull_nonzero_realloc,
          ev_post_nonnull_nonzero_realloc, leaf, link, assert, Res.relabel, Ev.relabel,
          Call.to_real, ALLOCPTR_TO_USERPTR, USERPTR_TO_ALLOCPTR, hsz, hsink, hus, ha2u, hu2a,
          hnext, hreal, hp1, hp2, h0, ha]
  · rcases hu : E.malloc_usable_size p st with ⟨u, st1⟩
    by_cases hs : s = 0
    · subst hs
      rcases hn : G.real_realloc p 0 (E.sink.pre_nonnull_free p u st1)
        with ⟨v, st2, inner⟩
      cases v <;>
        simp [generic_realloc_hook, hook_realloc, M.bind_def, M.pure_def, M.bind, M.pure,
          usable_size, ev_pre_alloc, ev_post_successful_alloc, ev_pre_nonnull_free,
          ev_post_nonnull_free, ev_pre_nonnull_nonzero_realloc,
          ev_post_nonnull_nonzero_realloc, leaf, link, assert, Res.relabel, Ev.relabel,
          Call.to_real, ALLOCPTR_TO_USERPTR, USERPTR_TO_ALLOCPTR, hsz, hsink, hus, ha2u, hu2a,
          hnext, hreal, hp, hu, hn]
    · rcases hp2 : E.sink.pre_alloc s E.sizeof_void_ptr c
        (E.sink.pre_nonnull_nonzero_realloc p s c st1) with ⟨⟨s2, a2⟩, st2⟩
      by_cases ha : a2 = E.sizeof_void_ptr
      · subst ha
        rcases hn : G.real_realloc p s2 st2 with ⟨v, st3, inner⟩
        cases v <;>
          simp [generic_realloc_hook, hook_realloc, M.bind_def, M.pure_def, M.bind, M.pure,
          usable_size, ev_pre_alloc, ev_post_successful_alloc, ev_pre_nonnull_free,
          ev_post_nonnull_free, ev_pre_nonnull_nonzero_realloc,
          ev_post_nonnull_nonzero_realloc, leaf, link, assert, Res.relabel, Ev.relabel,
          Call.to_real, ALLOCPTR_TO_USERPTR, USERPTR_TO_ALLOCPTR, hsz, hsink, hus, ha2u, hu2a,
          hnext, hreal, hp, hs, hu, hp2, hn]
      · simp [generic_realloc_hook, hook_realloc, M.bind_def, M.pure_def, M.bind, M.pure,
          usable_size, ev_pre_alloc, ev_post_successful_alloc, ev_pre_nonnull_free,
          ev_post_nonnull_free, ev_pre_nonnull_nonzero_realloc,
          ev_post_nonnull_nonzero_realloc, leaf, link, assert, Res.relabel, Ev.relabel,
          Call.to_real, ALLOCPTR_TO_USERPTR, USERPTR_TO_ALLOCPTR, hsz, hsink, hus, ha2u, hu2a,
          hnext, hreal, hp, hs, hu, hp2, ha]

end Variants

end MallocHooks

namespace MallocHooks

section Theorems7
variable {σ : Type}

/-- C17 as stated fails: over the same sink and toy allocator, with every next
hook present, `generic_initialize_hook` does not make the calls of `hook_init`
in the same order, and `generic_malloc_hook` does not make the calls of
`hook_malloc` with the same arguments. -/
theorem variants_differ_at_init_and_malloc :
    (toy_generic_env doubling_sink true).agrees (toy_env doubling_sink)
    ∧ (toy_generic_env doubling_sink true).next_initialize_hook
        = some (toy_env doubling_sink).next_hook_init
    ∧ (toy_generic_env doubling_sink true).next_malloc_hook
        = some (toy_env doubling_sink).next_hook_malloc
    ∧ ¬ (generic_initialize_hook (toy_generic_env doubling_sink true) ()
        = (hook_init (toy_env doubling_sink) ()).relabel Call.to_weak)
    ∧ ¬ (generic_malloc_hook (toy_generic_env doubling_sink true) 64 7 ()
        = (hook_malloc (toy_env doubling_sink) 64 7 ()).relabel Call.to_weak) := by
  refine ⟨⟨rfl, rfl, rfl, rfl, rfl⟩, rfl, rfl, ?_, ?_⟩
  · intro h
    have h2 : (generic_initialize_hook (toy_generic_env doubling_sink true) ()).calls.map Ev.call
        = ((hook_init (toy_env doubling_sink) ()).relabel Call.to_weak).calls.map Ev.call := by
      rw [h]
    exact absurd h2 (by decide)
  · intro h
    have h2 : (generic_malloc_hook (toy_generic_env doubling_sink true) 64 7 ()).calls.map Ev.call
        = ((hook_malloc (toy_env doubling_sink) 64 7 ()).relabel Call.to_weak).calls.map
            Ev.call := by
      rw [h]
    exact absurd h2 (by decide)

/-- C17 amended: over the same parameters and with the next hooks present, the
weak-symbol variant of free, memalign and realloc makes the same calls with the
same arguments, in the same order, and returns the same result as the direct
variant; the weak-symbol init makes the two calls of `hook_init` in the opposite
order: the next-in-chain init first, then `initialize_hook` (standing for
`post_init`).  Nothing is stated about malloc. -/
theorem variants_agree_up_to_init_order (G : GenericEnv σ) (E : Env σ) (hag : G.agrees E)
    (hinit : G.next_initialize_hook = some E.next_hook_init)
    (hfree : G.next_free_hook = some E.next_hook_free)
    (hmemalign : G.next_memalign_hook = some E.next_hook_memalign)
    (hrealloc : G.next_realloc_hook = some E.next_hook_realloc) :
    (∀ (st st1 : σ) (inner : List Ev), E.next_hook_init st = ⟨some (), st1, inner⟩ →
      generic_initialize_hook G st =
        ⟨some (), E.sink.post_init st1,
         [Ev.mk Call.next_initialize_hook inner, Ev.mk Call.initialize_hook []]⟩
      ∧ (generic_initialize_hook G st).calls.map Ev.call =
        ((hook_init E st).calls.map (fun e => Call.to_weak e.call)).reverse)
    ∧ (∀ (p c : Nat) (st : σ),
      generic_free_hook G p c st = (hook_free E p c st).relabel Call.to_weak)
    ∧ (∀ (a s c : Nat) (st : σ),
      generic_memalign_hook G a s c st = (hook_memalign E a s c st).relabel Call.to_weak)
    ∧ (∀ (p s c : Nat) (st : σ),
      generic_realloc_hook G p s c st = (hook_realloc E p s c st).relabel Call.to_weak) := by
  refine ⟨?_, generic_free_hook_present G E hag hfree,
    generic_memalign_hook_present G E hag hmemalign,
    generic_realloc_hook_present G E hag hrealloc⟩
  intro st st1 inner hn
  obtain ⟨hsz, hsink, hus, ha2u, hu2a⟩ := hag
  constructor
  · simp [generic_initialize_hook, M.bind_def, M.pure_def, M.bind, M.pure, leaf, link,
      hinit, hn, hsink]
  · simp [generic_initialize_hook, hook_init, ev_post_init, M.bind_def, M.pure_def, M.bind,
      M.pure, leaf, link, hinit, hn, hsink, Ev.call, Call.to_weak]

/-- C17 amended, at the size-doubling sink over the toy allocator. -/
theorem variants_agree_up_to_init_order_witness :
    (∀ (st st1 : Unit) (inner : List Ev),
      (toy_env doubling_sink).next_hook_init st = ⟨some (), st1, inner⟩ →
      generic_initialize_hook (toy_generic_env doubling_sink true) st =
        ⟨some (), st1,
         [Ev.mk Call.next_initialize_hook inner, Ev.mk Call.initialize_hook []]⟩
      ∧ (generic_initialize_hook (toy_generic_env doubling_sink true) st).calls.map Ev.call =
        ((hook_init (toy_env doubling_sink) st).calls.map
          (fun e => Call.to_weak e.call)).reverse)
    ∧ (∀ (p c : Nat) (st : Unit),
      generic_free_hook (toy_generic_env doubling_sink true) p c st =
        (hook_free (toy_env doubling_sink) p c st).relabel Call.to_weak)
    ∧ (∀ (a s c : Nat) (st : Unit),
      generic_memalign_hook (toy_generic_env doubling_sink true) a s c st =
        (hook_memalign (toy_env doubling_sink) a s c st).relabel Call.to_weak)
    ∧ (∀ (p s c : Nat) (st : Unit),
      generic_realloc_hook (toy_generic_env doubling_sink true) p s c st =
        (hook_realloc (toy_env doubling_sink) p s c st).relabel Call.to_weak) :=
  variants_agree_up_to_init_order (toy_generic_env doubling_sink true) (toy_env doubling_sink)
    ⟨rfl, rfl, rfl, rfl, rfl⟩ rfl rfl rfl rfl

/-- C19: over the same parameters, `generic_free_hook`, `generic_memalign_hook`
and `generic_realloc_hook` with their next hook present make the same calls
(sink events, usable-size queries, next-hook calls) with the same arguments, in
the same order, and end with the same result and state as `hook_free`,
`hook_memalign` and `hook_realloc`; with the next hook absent the only
difference is that the real free, memalign or realloc is called, with the same
arguments minus the caller. -/
theorem weak_symbol_variant_agrees (G : GenericEnv σ) (E : Env σ) (hag : G.agrees E) :
    (G.next_free_hook = some E.next_hook_free → ∀ (p c : Nat) (st : σ),
      generic_free_hook G p c st = (hook_free E p c st).relabel Call.to_weak)
    ∧ (G.next_memalign_hook = some E.next_hook_memalign → ∀ (a s c : Nat) (st : σ),
      generic_memalign_hook G a s c st = (hook_memalign E a s c st).relabel Call.to_weak)
    ∧ (G.next_realloc_hook = some E.next_hook_realloc → ∀ (p s c : Nat) (st : σ),
      generic_realloc_hook G p s c st = (hook_realloc E p s c st).relabel Call.to_weak)
    ∧ (G.next_free_hook = none → (E.next_hook_free = fun ptr _ => G.real_free ptr) →
      ∀ (p c : Nat) (st : σ),
      generic_free_hook G p c st = (hook_free E p c st).relabel Call.to_real)
    ∧ (G.next_memalign_hook = none →
      (E.next_hook_memalign = fun alignment size _ => G.real_memalign alignment size) →
      ∀ (a s c : Nat) (st : σ),
      generic_memalign_hook G a s c st = (hook_memalign E a s c st).relabel Call.to_real)
    ∧ (G.next_realloc_hook = none →
      (E.next_hook_realloc = fun ptr size _ => G.real_realloc ptr size) →
      ∀ (p s c : Nat) (st : σ),
      generic_realloc_hook G p s c st = (hook_realloc E p s c st).relabel Call.to_real) :=
  ⟨fun h => generic_free_hook_present G E hag h,
   fun h => generic_memalign_hook_present G E hag h,
   fun h => generic_realloc_hook_present G E hag h,
   fun h hr => generic_free_hook_absent G E hag h hr,
   fun h hr => generic_memalign_hook_absent G E hag h hr,
   fun h hr => generic_realloc_hook_absent G E hag h hr⟩

/-- C19, the trailer sink over the toy allocator: a genuine realloc with the
next hook present, and a free with it absent. -/
theorem weak_symbol_variant_agrees_witness :
    (generic_realloc_hook (toy_generic_env trailer_sink true) 4096 100 7 () =
        (hook_realloc (toy_env trailer_sink) 4096 100 7 ()).relabel Call.to_weak
      ∧ generic_realloc_hook (toy_generic_env trailer_sink true) 4096 100 7 () =
        ⟨some 4096, (),
         [Ev.mk (Call.malloc_usable_size 4096) [],
          Ev.mk (Call.pre_nonnull_nonzero_realloc 4096 100 7) [],
          Ev.mk (Call.pre_alloc 100 8 7) [],
          Ev.mk (Call.next_realloc_hook 4096 116 7) [],
          Ev.mk (Call.post_nonnull_nonzero_realloc 4096 116 24 7 4096) []]⟩)
    ∧ (generic_free_hook (toy_generic_env trailer_sink false) 4096 7 () =
        (hook_free (toy_env trailer_sink) 4096 7 ()).relabel Call.to_real
      ∧ generic_free_hook (toy_generic_env trailer_sink false) 4096 7 () =
        ⟨some (), (),
         [Ev.mk (Call.malloc_usable_size 4096) [],
          Ev.mk (Call.pre_nonnull_free 4096 24) [],
          Ev.mk (Call.real_free 4096) [],
          Ev.mk (Call.post_nonnull_free 4096) []]⟩) :=
  ⟨⟨(weak_symbol_variant_agrees (toy_generic_env trailer_sink true) (toy_env trailer_sink)
        ⟨rfl, rfl, rfl, rfl, rfl⟩).2.2.1 rfl 4096 100 7 (), rfl⟩,
   ⟨(weak_symbol_variant_agrees (toy_generic_env trailer_sink false) (toy_env trailer_sink)
        ⟨rfl, rfl, rfl, rfl, rfl⟩).2.2.2.1 rfl rfl 4096 7 (), rfl⟩⟩

end Theorems7

end MallocHooks
